import Mathlib

/-!
Shallow embedding of the observation-construction and session-grouping core of
the `oonidata` measurement pipeline (files `oonidata/datautils.py`,
`oonidata/observations.py`, `oonidata/processing.py`), together with theorems
settling the specification claims about it.

Modelling conventions:
* Python `bytes` values are `List Nat` with every element a byte value.
* Python `str` values are `List Nat` of Unicode code points (`Str` below).
* Python `None` becomes `Option.none`; Python truthiness of optional strings
  is modelled explicitly where the source relies on it.
* Python floats only ever occur in the source as opaque timestamps compared
  for equality or added, so they are modelled as `Int`.
* External collaborators (ASN/geo lookup, fingerprint store, certificate
  decoder, database) are abstracted as function parameters or omitted when no
  claim mentions the fields they populate.
-/

namespace Oonidata

/-- Python `str` values, as lists of Unicode code points. -/
abbrev Str := List Nat

/-- Python `bytes` values, as lists of byte values. -/
abbrev Bytes := List Nat

/-- Code points of an ASCII Lean string literal; used to write down the
concrete `str`/`bytes` constants appearing in the source. -/
def chars (s : String) : List Nat :=
  s.data.map Char.toNat

/-- ASCII lower-casing of one byte / code point, as done by Python's
`str.lower` / `bytes.lower` on the ASCII header names the source works with. -/
def lowerByte (b : Nat) : Nat :=
  if 65 ≤ b ∧ b ≤ 90 then b + 32 else b

/-- ASCII lower-casing of a string of bytes / code points. -/
def lowerStr (s : List Nat) : List Nat :=
  s.map lowerByte

/-- Continuation-byte test for UTF-8 decoding. -/
def utf8Cont (b : Nat) : Bool :=
  decide (0x80 ≤ b) && decide (b ≤ 0xBF)

/-- Strict UTF-8 decoding of a byte string into code points, as performed by
Python's `bytes.decode` with the `utf-8` codec: rejects stray continuation
bytes, overlong forms, surrogates and values above `U+10FFFF`; `none` models a
raised `UnicodeDecodeError`. -/
def utf8_decode : List Nat → Option (List Nat)
  | [] => some []
  | b :: rest =>
    if b ≤ 0x7F then
      (utf8_decode rest).map (fun cs => b :: cs)
    else if 0xC2 ≤ b ∧ b ≤ 0xDF then
      match rest with
      | b1 :: rest1 =>
        if utf8Cont b1 then
          (utf8_decode rest1).map (fun cs => ((b - 0xC0) * 64 + (b1 - 0x80)) :: cs)
        else none
      | [] => none
    else if 0xE0 ≤ b ∧ b ≤ 0xEF then
      match rest with
      | b1 :: b2 :: rest2 =>
        let okB1 :=
          if b = 0xE0 then decide (0xA0 ≤ b1) && decide (b1 ≤ 0xBF)
          else if b = 0xED then decide (0x80 ≤ b1) && decide (b1 ≤ 0x9F)
          else utf8Cont b1
        if okB1 && utf8Cont b2 then
          (utf8_decode rest2).map
            (fun cs => ((b - 0xE0) * 4096 + (b1 - 0x80) * 64 + (b2 - 0x80)) :: cs)
        else none
      | _ => none
    else if 0xF0 ≤ b ∧ b ≤ 0xF4 then
      match rest with
      | b1 :: b2 :: b3 :: rest3 =>
        let okB1 :=
          if b = 0xF0 then decide (0x90 ≤ b1) && decide (b1 ≤ 0xBF)
          else if b = 0xF4 then decide (0x80 ≤ b1) && decide (b1 ≤ 0x8F)
          else utf8Cont b1
        if okB1 && utf8Cont b2 && utf8Cont b3 then
          (utf8_decode rest3).map
            (fun cs =>
              ((b - 0xF0) * 262144 + (b1 - 0x80) * 4096 + (b2 - 0x80) * 64 + (b3 - 0x80)) :: cs)
        else none
      | _ => none
    else none

/-- ASCII strict decoding: succeeds exactly when every byte is below `0x80`,
yielding the same values as code points. -/
def ascii_decode (s : List Nat) : Option (List Nat) :=
  if s.all (fun b => decide (b < 128)) then some s else none

/-- Strict Latin-1 decoding: every genuine byte (below `0x100`) maps to the
code point of the same value, so on real byte strings it never fails. -/
def latin1_decode (s : List Nat) : Option (List Nat) :=
  if s.all (fun b => decide (b < 256)) then some s else none

/-- ASCII decoding with invalid bytes dropped, as in
`s.decode("ascii", "ignore")`. -/
def ascii_ignore_decode (s : List Nat) : List Nat :=
  s.filter (fun b => decide (b < 128))

/-- `datautils.guess_decode`: try ASCII, then UTF-8, then Latin-1 strict
decoding, and fall back to ASCII with invalid bytes dropped if all three
raise.  Each `try/except UnicodeDecodeError` arm is one `Option` match. -/
def guess_decode (s : List Nat) : Str :=
  match ascii_decode s with
  | some t => t
  | none =>
    match utf8_decode s with
    | some t => t
    | none =>
      match latin1_decode s with
      | some t => t
      | none => ascii_ignore_decode s

/-- `datautils.get_first_http_header`: scan a (name, value) header list and
return the first value whose name matches, comparing case-insensitively
unless `case_sensitive` is set; returns the empty byte string when the list
is empty or no name matches. -/
def getFirstHeaderLoop (name : Str) (case_sensitive : Bool) : List (Str × Bytes) → Bytes
  | [] => []
  | (k, v) :: rest =>
    if (if case_sensitive then k else lowerStr k) = name then v
    else getFirstHeaderLoop name case_sensitive rest

def get_first_http_header (header_name : Str) (header_list : List (Str × Bytes))
    (case_sensitive : Bool := false) : Bytes :=
  getFirstHeaderLoop (if case_sensitive then header_name else lowerStr header_name)
    case_sensitive header_list

/-! ### HTML title extraction (`datautils` regular expressions)

The two patterns of the source are modelled as specialised leftmost / lazy
matchers.  Python's `re.search(body, flags)` is reproduced literally: the
source passes `re.IGNORECASE | re.DOTALL` (numeric value 18) as the second
positional argument of `search`, which is the *start position*, so matching
begins at byte offset 18. -/

/-- First index `i` with `start ≤ i < start + fuel` satisfying `p`,
scanning upwards; the bounded-search workhorse of the regex model. -/
def firstIdx (p : Nat → Bool) : Nat → Nat → Option Nat
  | _, 0 => none
  | start, fuel + 1 => if p start then some start else firstIdx p (start + 1) fuel

/-- First index at or after `start` (up to the end of `hay`) satisfying `p`. -/
def firstFrom (p : Nat → Bool) (start : Nat) (hay : List Nat) : Option Nat :=
  firstIdx p start (hay.length + 1 - start)

/-- Case-insensitive literal match of `needle` against the front of `rest`. -/
def litHere : List Nat → List Nat → Bool
  | [], _ => true
  | _ :: _, [] => false
  | n :: ns, h :: hs => lowerByte n == lowerByte h && litHere ns hs

/-- Case-insensitive literal match of `needle` inside `hay` at offset `i`. -/
def litAt (needle hay : List Nat) (i : Nat) : Bool :=
  litHere needle (hay.drop i)

/-- Is byte `m` of `hay` a double quote? (the closing delimiter of the
`content` capture group). -/
def quoteAt (hay : List Nat) (m : Nat) : Bool :=
  hay.get? m == some 34

/-- Can the `META_TITLE_REGEXP` tail starting with `content="` match at `k`?
(the literal, then a lazily captured group closed by a quote). -/
def metaStage2 (hay : List Nat) (k : Nat) : Bool :=
  litAt (chars "content=\"") hay k && (firstFrom (quoteAt hay) (k + 9) hay).isSome

/-- Can the `META_TITLE_REGEXP` tail starting with `property="og:title"`
match at `j`? -/
def metaStage1 (hay : List Nat) (j : Nat) : Bool :=
  litAt (chars "property=\"og:title\"") hay j &&
    (firstFrom (metaStage2 hay) (j + 19) hay).isSome

/-- Can the whole `META_TITLE_REGEXP` match starting at `i`? -/
def metaStage0 (hay : List Nat) (i : Nat) : Bool :=
  litAt (chars "<meta") hay i && (firstFrom (metaStage1 hay) (i + 5) hay).isSome

/-- Leftmost, lazy match of
`<meta.*?property="og:title".*?content="(.*?)"` (IGNORECASE, DOTALL) against
`hay` with start position `pos`, returning the captured group: the match
starts at the least feasible position, and each lazy gap extends to the
nearest position from which the remainder of the pattern still matches. -/
def metaTitleMatch (hay : List Nat) (pos : Nat) : Option (List Nat) :=
  match firstFrom (metaStage0 hay) pos hay with
  | none => none
  | some i =>
    match firstFrom (metaStage1 hay) (i + 5) hay with
    | none => none
    | some j =>
      match firstFrom (metaStage2 hay) (j + 19) hay with
      | none => none
      | some k =>
        match firstFrom (quoteAt hay) (k + 9) hay with
        | none => none
        | some m => some ((hay.drop (k + 9)).take (m - (k + 9)))

/-- `datautils.get_html_meta_title`: search the body with
`META_TITLE_REGEXP` (the flags value 18 lands in the `pos` argument of
`re.search`) and best-effort-decode the captured group, else empty string. -/
def get_html_meta_title (body : Bytes) : Str :=
  match metaTitleMatch body 18 with
  | some g => guess_decode g
  | none => chars ""

/-- Is byte `j` of `hay` the character `>`? -/
def quoteGt (hay : List Nat) (j : Nat) : Bool :=
  hay.get? j == some 62

/-- Can the `TITLE_REGEXP` tail `>(.*?)</title>` match with the tag closed at
`j` (position of the `>` finishing the opening tag)? -/
def titleStage1 (hay : List Nat) (j : Nat) : Bool :=
  quoteGt hay j && (firstFrom (litAt (chars "</title>") hay) (j + 1) hay).isSome

/-- Can the whole `TITLE_REGEXP` match starting at `i`? -/
def titleStage0 (hay : List Nat) (i : Nat) : Bool :=
  litAt (chars "<title") hay i && (firstFrom (titleStage1 hay) (i + 6) hay).isSome

/-- Leftmost, lazy match of `<title.*?>(.*?)</title>` (IGNORECASE, DOTALL),
returning the captured group.  The source compiles this pattern as
`TITLE_REGEXP` but never applies it: `get_html_title` below reuses the meta
pattern instead. -/
def titleMatch (hay : List Nat) (pos : Nat) : Option (List Nat) :=
  match firstFrom (titleStage0 hay) pos hay with
  | none => none
  | some i =>
    match firstFrom (titleStage1 hay) (i + 6) hay with
    | none => none
    | some j =>
      match firstFrom (litAt (chars "</title>") hay) (j + 1) hay with
      | none => none
      | some m => some ((hay.drop (j + 1)).take (m - (j + 1)))

/-- `datautils.get_html_title` exactly as written in the source: it searches
with `META_TITLE_REGEXP` (not `TITLE_REGEXP`), making it byte-for-byte the
same computation as `get_html_meta_title`. -/
def get_html_title (body : Bytes) : Str :=
  match metaTitleMatch body 18 with
  | some g => guess_decode g
  | none => chars ""

/-! ### Bogon classification (`datautils`) -/

/-- An IPv4 or IPv6 address, already parsed to its numeric value by the
external `ipaddress` library (`v4` values are below `2^32`, `v6` values below
`2^128`). -/
inductive IPAddr where
  | v4 (n : Nat)
  | v6 (n : Nat)
deriving DecidableEq

/-- An `ipaddress.ip_network` value: address family, first address, and the
count of addresses in the range. -/
structure IPNetwork where
  isV6 : Bool
  base : Nat
  size : Nat
deriving DecidableEq

/-- IPv4 network literal from base address and prefix length. -/
def net4 (base : Nat) (plen : Nat) : IPNetwork :=
  { isV6 := false, base := base, size := 2 ^ (32 - plen) }

/-- IPv6 network literal from base address and prefix length. -/
def net6 (base : Nat) (plen : Nat) : IPNetwork :=
  { isV6 := true, base := base, size := 2 ^ (128 - plen) }

/-- Python's `addr in network` test: always false when the address family of
the two operands differs, else a range check between network and broadcast
address. -/
def inNetwork (a : IPAddr) (n : IPNetwork) : Bool :=
  match a with
  | IPAddr.v4 v => !n.isV6 && decide (n.base ≤ v) && decide (v < n.base + n.size)
  | IPAddr.v6 v => n.isV6 && decide (n.base ≤ v) && decide (v < n.base + n.size)

/-- `datautils.bogon_ipv4_ranges`, the fixed IPv4 bogon table. -/
def bogon_ipv4_ranges : List IPNetwork :=
  [ net4 0 8                  -- 0.0.0.0/8
  , net4 (10 * 2 ^ 24) 8      -- 10.0.0.0/8
  , net4 (100 * 2 ^ 24 + 64 * 2 ^ 16) 10   -- 100.64.0.0/10
  , net4 (127 * 2 ^ 24) 8     -- 127.0.0.0/8
  , net4 (169 * 2 ^ 24 + 254 * 2 ^ 16) 16  -- 169.254.0.0/16
  , net4 (172 * 2 ^ 24 + 16 * 2 ^ 16) 12   -- 172.16.0.0/12
  , net4 (192 * 2 ^ 24) 24    -- 192.0.0.0/24
  , net4 (192 * 2 ^ 24 + 2 * 2 ^ 8) 24     -- 192.0.2.0/24
  , net4 (192 * 2 ^ 24 + 168 * 2 ^ 16) 16  -- 192.168.0.0/16
  , net4 (198 * 2 ^ 24 + 18 * 2 ^ 16) 15   -- 198.18.0.0/15
  , net4 (198 * 2 ^ 24 + 51 * 2 ^ 16 + 100 * 2 ^ 8) 24 -- 198.51.100.0/24
  , net4 (203 * 2 ^ 24 + 113 * 2 ^ 8) 24   -- 203.0.113.0/24
  , net4 (224 * 2 ^ 24) 3     -- 224.0.0.0/3
  ]

/-- `datautils.bogon_ipv6_ranges`, the fixed IPv6 bogon table (defined in the
source, but — see `is_ipv6_bogon` — never consulted by it). -/
def bogon_ipv6_ranges : List IPNetwork :=
  [ net6 0 128                               -- ::/128
  , net6 1 128                               -- ::1/128
  , net6 (0xFFFF * 2 ^ 32) 96                -- ::ffff:0:0/96
  , net6 0 96                                -- ::/96
  , net6 (0x100 * 2 ^ 112) 64                -- 100::/64
  , net6 (0x2001 * 2 ^ 112 + 0x10 * 2 ^ 96) 28   -- 2001:10::/28
  , net6 (0x2001 * 2 ^ 112 + 0xDB8 * 2 ^ 96) 32  -- 2001:db8::/32
  , net6 (0xFC00 * 2 ^ 112) 7                -- fc00::/7
  , net6 (0xFE80 * 2 ^ 112) 10               -- fe80::/10
  , net6 (0xFEC0 * 2 ^ 112) 10               -- fec0::/10
  , net6 (0xFF00 * 2 ^ 112) 8                -- ff00::/8
  , net6 (0x2002 * 2 ^ 112) 24               -- 2002::/24
  , net6 (0x2002 * 2 ^ 112 + 0xA00 * 2 ^ 96) 24  -- 2002:a00::/24
  , net6 (0x2002 * 2 ^ 112 + 0x7F00 * 2 ^ 96) 24 -- 2002:7f00::/24
  , net6 (0x2002 * 2 ^ 112 + 0xA9FE * 2 ^ 96) 32 -- 2002:a9fe::/32
  , net6 (0x2002 * 2 ^ 112 + 0xAC10 * 2 ^ 96) 28 -- 2002:ac10::/28
  , net6 (0x2002 * 2 ^ 112 + 0xC000 * 2 ^ 96) 40 -- 2002:c000::/40
  , net6 (0x2002 * 2 ^ 112 + 0xC000 * 2 ^ 96 + 0x200 * 2 ^ 80) 40 -- 2002:c000:200::/40
  , net6 (0x2002 * 2 ^ 112 + 0xC0A8 * 2 ^ 96) 32 -- 2002:c0a8::/32
  , net6 (0x2002 * 2 ^ 112 + 0xC612 * 2 ^ 96) 31 -- 2002:c612::/31
  , net6 (0x2002 * 2 ^ 112 + 0xC633 * 2 ^ 96 + 0x6400 * 2 ^ 80) 40 -- 2002:c633:6400::/40
  , net6 (0x2002 * 2 ^ 112 + 0xCB00 * 2 ^ 96 + 0x7100 * 2 ^ 80) 40 -- 2002:cb00:7100::/40
  , net6 (0x2002 * 2 ^ 112 + 0xE000 * 2 ^ 96) 20 -- 2002:e000::/20
  , net6 (0x2002 * 2 ^ 112 + 0xF000 * 2 ^ 96) 20 -- 2002:f000::/20
  , net6 (0x2002 * 2 ^ 112 + 0xFFFF * 2 ^ 96 + 0xFFFF * 2 ^ 80) 48 -- 2002:ffff:ffff::/48
  , net6 (0x2001 * 2 ^ 112) 40               -- 2001::/40
  , net6 (0x2001 * 2 ^ 112 + 0xA00 * 2 ^ 80) 40  -- 2001:0:a00::/40
  , net6 (0x2001 * 2 ^ 112 + 0x7F00 * 2 ^ 80) 40 -- 2001:0:7f00::/40
  , net6 (0x2001 * 2 ^ 112 + 0xA9FE * 2 ^ 80) 48 -- 2001:0:a9fe::/48
  , net6 (0x2001 * 2 ^ 112 + 0xAC10 * 2 ^ 80) 44 -- 2001:0:ac10::/44
  , net6 (0x2001 * 2 ^ 112 + 0xC000 * 2 ^ 80) 56 -- 2001:0:c000::/56
  , net6 (0x2001 * 2 ^ 112 + 0xC000 * 2 ^ 80 + 0x200 * 2 ^ 64) 56 -- 2001:0:c000:200::/56
  , net6 (0x2001 * 2 ^ 112 + 0xC0A8 * 2 ^ 80) 48 -- 2001:0:c0a8::/48
  , net6 (0x2001 * 2 ^ 112 + 0xC612 * 2 ^ 80) 47 -- 2001:0:c612::/47
  , net6 (0x2001 * 2 ^ 112 + 0xC633 * 2 ^ 80 + 0x6400 * 2 ^ 64) 56 -- 2001:0:c633:6400::/56
  , net6 (0x2001 * 2 ^ 112 + 0xCB00 * 2 ^ 80 + 0x7100 * 2 ^ 64) 56 -- 2001:0:cb00:7100::/56
  , net6 (0x2001 * 2 ^ 112 + 0xE000 * 2 ^ 80) 36 -- 2001:0:e000::/36
  , net6 (0x2001 * 2 ^ 112 + 0xF000 * 2 ^ 80) 36 -- 2001:0:f000::/36
  , net6 (0x2001 * 2 ^ 112 + 0xFFFF * 2 ^ 80 + 0xFFFF * 2 ^ 64) 64 -- 2001:0:ffff:ffff::/64
  ]

/-- `datautils.is_ipv4_bogon`.  The argument is the result of parsing the
input string with `ipaddress.IPv4Address`: `none` models a raised
`AddressValueError` (the function then returns false). -/
def is_ipv4_bogon (parsed : Option Nat) : Bool :=
  match parsed with
  | none => false
  | some a => bogon_ipv4_ranges.any (fun r => inNetwork (IPAddr.v4 a) r)

/-- `datautils.is_ipv6_bogon` exactly as written in the source: the parsed
IPv6 address is tested against `bogon_ipv4_ranges` (not against
`bogon_ipv6_ranges`), and the family mismatch makes every membership test
false. -/
def is_ipv6_bogon (parsed : Option Nat) : Bool :=
  match parsed with
  | none => false
  | some a => bogon_ipv4_ranges.any (fun r => inNetwork (IPAddr.v6 a) r)

/-- The IPv6 bogon test as the spec describes it (against the IPv6 table);
used only to witness what the source's dedicated-but-unused table would
yield. -/
def is_ipv6_bogon_vs_ipv6_table (parsed : Option Nat) : Bool :=
  match parsed with
  | none => false
  | some a => bogon_ipv6_ranges.any (fun r => inNetwork (IPAddr.v6 a) r)

/-! ### Observation identifiers

`observations.py` builds every observation id with the f-string
`msmt.measurement_uid` followed by `idx`. -/

/-- Decimal digits of `n`, least significant first, as produced by Python's
`str` (so `0` yields the single digit `0`). -/
def natDigits (n : Nat) : List Nat :=
  if n = 0 then [0] else Nat.digits 10 n

/-- Python's `str(n)` for a natural number, as code points. -/
def strOfNat (n : Nat) : Str :=
  (natDigits n).reverse.map (fun d => 48 + d)

/-- The f-string forming every observation id in `observations.py`:
the measurement uid directly followed by the decimal sequence index. -/
def obsId (uid : Str) (idx : Nat) : Str :=
  uid ++ strOfNat idx

/-! ### Measurement data model (`oonidata.dataformat`, interface only)

The claims only exercise the fields below; enrichment inputs consumed by the
external ASN/geo service and the certificate decoder are omitted, as no claim
mentions the observation fields they populate. -/

/-- Python truthiness of an optional string: `None` and the empty string are
falsy. -/
def optTruthy (s : Option Str) : Bool :=
  match s with
  | none => false
  | some v => !(v == [])

/-- The base-measurement fields the claims depend on.  `session_id` of every
observation is the probe's `report_id`. -/
structure Measurement where
  measurement_uid : Str
  report_id : Str
  probe_cc : Str
  measurement_start_time : Int
deriving DecidableEq

/-- `observations.make_timestamp`: start time plus the relative offset when
the offset is present and truthy (nonzero). -/
def make_timestamp (msmt : Measurement) (t : Option Int) : Int :=
  match t with
  | some v => if v ≠ 0 then msmt.measurement_start_time + v else msmt.measurement_start_time
  | none => msmt.measurement_start_time

/-- `observations.normalize_failure` is the identity in the source (the
mapping of known unknowns is a TODO there). -/
def normalize_failure (f : Option Str) : Option Str := f

structure DNSAnswer where
  answer_type : Option Str
  ipv4 : Option Str
  ipv6 : Option Str
  hostname : Option Str
deriving DecidableEq

structure DNSQuery where
  hostname : Str
  query_type : Str
  failure : Option Str
  t : Option Int
  answers : Option (List DNSAnswer)
deriving DecidableEq

structure TCPConnectStatus where
  failure : Option Str
deriving DecidableEq

structure TCPConnect where
  ip : Str
  port : Nat
  t : Option Int
  status : TCPConnectStatus
deriving DecidableEq

structure NetworkEvent where
  operation : Str
  t : Int
  address : Option Str
  num_bytes : Option Int
deriving DecidableEq

structure TLSHandshake where
  failure : Option Str
  server_name : Option Str
  address : Option Str
  t : Option Int
  no_tls_verify : Option Bool
deriving DecidableEq

structure HTTPRequest where
  url : Str
  method : Option Str
  body_bytes : Option Bytes
  body_is_truncated : Option Bool
  x_transport : Option Str
deriving DecidableEq

structure HTTPResponse where
  code : Option Int
  headers_list_bytes : Option (List (Str × Bytes))
  body_bytes : Option Bytes
  body_is_truncated : Option Bool
deriving DecidableEq

structure HTTPTransaction where
  request : Option HTTPRequest
  response : Option HTTPResponse
  failure : Option Str
  t : Option Int
deriving DecidableEq

/-- One fingerprint match as returned by the external fingerprint store. -/
structure Fingerprint where
  name : Str
  scope : Str
  expected_countries : Option (List Str)
deriving DecidableEq

/-- The external fingerprint store's HTTP rule set, abstracted as the
function returning the matches for a response. -/
abbrev FingerprintDB := HTTPResponse → List Fingerprint

/-- The caller-supplied IP-to-domain mapping, an association list read with
`dict.get`. -/
abbrev IPDomainMap := List (Str × Str)

/-- Python's `d.get(k, default)` on an association-list map. -/
def dictGet (m : IPDomainMap) (k : Str) (default : Str) : Str :=
  match m.find? (fun p => p.1 == k) with
  | some p => p.2
  | none => default

/-! ### URL and address parsing helpers (`urllib.parse`, interface only)

Simplified models of the two `urllib.parse` calls of the source; they handle
the `scheme://host:port/...` and `host:port` shapes the pipeline feeds them
(no user-info or bracketed IPv6 literals), which no claim exercises. -/

/-- Case-sensitive search for `needle` inside `hay`. -/
def findSub (needle hay : List Nat) : Option Nat :=
  firstFrom (fun i => needle.isPrefixOf (hay.drop i)) 0 hay

/-- Decimal value of a digit string. -/
def digitsToNat (ds : Str) : Nat :=
  ds.foldl (fun acc c => acc * 10 + (c - 48)) 0

/-- Model of `urlsplit("//" ++ a).hostname` and `.port`: split at the last
colon when a nonempty all-digit port follows it; an empty host is `None`. -/
def splitHostPort (a : Str) : Option Str × Option Nat :=
  let host_of := fun (h : Str) => if h = [] then none else some (lowerStr h)
  match a.reverse.findIdx? (fun c => c == 58) with
  | some r =>
    let i := a.length - 1 - r
    let host := a.take i
    let portDigits := a.drop (i + 1)
    if portDigits ≠ [] ∧ portDigits.all (fun c => decide (48 ≤ c) && decide (c ≤ 57)) then
      (host_of host, some (digitsToNat portDigits))
    else (host_of a, none)
  | none => (host_of a, none)

/-- Model of `urlparse(url).scheme`: the part before `"://"`, else empty. -/
def urlScheme (url : Str) : Str :=
  match findSub (chars "://") url with
  | some i => url.take i
  | none => chars ""

/-- Model of `urlparse(url).hostname`: the lower-cased authority after
`"://"`, cut at the first `/` or `:`; `None` when empty. -/
def urlHostname (url : Str) : Option Str :=
  let rest := match findSub (chars "://") url with
    | some i => url.drop (i + 3)
    | none => chars ""
  let netloc := rest.takeWhile (fun c => !(c == 47))
  let host := netloc.takeWhile (fun c => !(c == 58))
  if host = [] then none else some (lowerStr host)

/-! ### DNS observations (`observations.py`) -/

/-- The `DNSObservation` fields the claims mention.  ASN/geo enrichment,
bogon flagging of the answer and DNS fingerprint matching are produced by
external collaborators and are omitted. -/
structure DNSObservation where
  observation_id : Str
  session_id : Str
  timestamp : Int
  target : Str
  domain_name : Str
  query_type : Str
  failure : Option Str
  answer_type : Option Str
  answer : Option Str
deriving DecidableEq

/-- `DNSObservation.from_measurement`: one observation per (query, answer)
pair; a missing answer leaves the answer fields unset; the answer value is
the first truthy field among `ipv4`, `ipv6`, `hostname`. -/
def DNSObservation.from_measurement (msmt : Measurement) (query : DNSQuery)
    (answer : Option DNSAnswer) (idx : Nat) : DNSObservation :=
  let dnso : DNSObservation :=
    { observation_id := obsId msmt.measurement_uid idx
      session_id := msmt.report_id
      timestamp := make_timestamp msmt query.t
      target := chars ""
      domain_name := query.hostname
      query_type := query.query_type
      failure := normalize_failure query.failure
      answer_type := none
      answer := none }
  match answer with
  | none => dnso
  | some a =>
    let o1 := { dnso with answer_type := a.answer_type }
    if optTruthy a.ipv4 then { o1 with answer := a.ipv4 }
    else if optTruthy a.ipv6 then { o1 with answer := a.ipv6 }
    else if optTruthy a.hostname then { o1 with answer := a.hostname }
    else o1

/-- The answer list iterated for one query: `[None]` when the query has no
answers. -/
def dnsAnswerList (q : DNSQuery) : List (Option DNSAnswer) :=
  match q.answers with
  | none => [none]
  | some [] => [none]
  | some (a :: rest) => (a :: rest).map some

/-- Inner loop of `make_dns_observations`: one observation per answer, with
the running sequence index. -/
def dnsAnswersLoop (msmt : Measurement) (target : Str) (q : DNSQuery) :
    List (Option DNSAnswer) → Nat → List DNSObservation
  | [], _ => []
  | a :: rest, idx =>
    { DNSObservation.from_measurement msmt q a idx with target := target }
      :: dnsAnswersLoop msmt target q rest (idx + 1)

/-- Outer loop of `make_dns_observations` over the queries. -/
def dnsQueriesLoop (msmt : Measurement) (target : Str) :
    List DNSQuery → Nat → List DNSObservation
  | [], _ => []
  | q :: rest, idx =>
    dnsAnswersLoop msmt target q (dnsAnswerList q) idx
      ++ dnsQueriesLoop msmt target rest (idx + (dnsAnswerList q).length)

/-- `observations.make_dns_observations`. -/
def make_dns_observations (msmt : Measurement) (queries : Option (List DNSQuery))
    (target : Str := chars "") : List DNSObservation :=
  match queries with
  | none => []
  | some qs => if qs = [] then [] else dnsQueriesLoop msmt target qs 0

/-! ### TCP observations -/

/-- The `TCPObservation` fields the claims mention (ASN/geo enrichment of the
target IP omitted). -/
structure TCPObservation where
  observation_id : Str
  session_id : Str
  timestamp : Int
  target : Str
  ip : Str
  port : Nat
  failure : Option Str
  domain_name : Str
deriving DecidableEq

/-- `TCPObservation.from_measurement`: the domain name is read from the
caller-supplied IP-to-domain map with empty-string default. -/
def TCPObservation.from_measurement (msmt : Measurement) (res : TCPConnect) (idx : Nat)
    (ip_to_domain : IPDomainMap) : TCPObservation :=
  { observation_id := obsId msmt.measurement_uid idx
    session_id := msmt.report_id
    timestamp := make_timestamp msmt res.t
    target := chars ""
    ip := res.ip
    port := res.port
    failure := normalize_failure res.status.failure
    domain_name := dictGet ip_to_domain res.ip (chars "") }

/-- `observations.make_tcp_observations`; the default for `ip_to_domain` is
the (never-mutated) shared empty map. -/
def make_tcp_observations (msmt : Measurement) (tcp_connect : Option (List TCPConnect))
    (ip_to_domain : IPDomainMap := []) (target : Str := chars "") : List TCPObservation :=
  match tcp_connect with
  | none => []
  | some l =>
    l.enum.map (fun p =>
      { TCPObservation.from_measurement msmt p.2 p.1 ip_to_domain with target := target })

/-! ### TLS handshake / network-event correlation and TLS observations -/

/-- `observations.network_events_until_connect`: the prefix of the timeline
strictly before the first `connect` event. -/
def network_events_until_connect : List NetworkEvent → List NetworkEvent
  | [] => []
  | ne :: rest =>
    if ne.operation = chars "connect" then []
    else ne :: network_events_until_connect rest

/-- The scanning loop of `find_tls_handshake_network_events`: a `connect`
event resets the window, every event is appended to it, and a
`tls_handshake_done` event whose timestamp equals the handshake's returns the
window plus `network_events_until_connect` of the timeline from that event on
(`network_events[idx:]` in the source, i.e. including the matched event
itself a second time). -/
def findTLSLoop (tls_t : Option Int) :
    List NetworkEvent → List NetworkEvent → Option (List NetworkEvent)
  | [], _ => none
  | ne :: rest, window =>
    let window1 := (if ne.operation = chars "connect" then [] else window) ++ [ne]
    if ne.operation = chars "tls_handshake_done" ∧ tls_t = some ne.t then
      some (window1 ++ network_events_until_connect (ne :: rest))
    else findTLSLoop tls_t rest window1

/-- `observations.find_tls_handshake_network_events`. -/
def find_tls_handshake_network_events (tls_h : TLSHandshake)
    (network_events : Option (List NetworkEvent)) : Option (List NetworkEvent) :=
  match network_events with
  | none => none
  | some [] => none
  | some evs => findTLSLoop tls_h.t evs []

/-- The three failures classified as an invalid certificate in
`TLSObservation.from_measurement`. -/
def ssl_cert_failures : List Str :=
  [chars "ssl_invalid_hostname", chars "ssl_unknown_authority", chars "ssl_invalid_certificate"]

/-- Python's `failure in (...)` membership test against the three
certificate failures (`None` is never a member). -/
def failureInCertList (f : Option Str) : Bool :=
  match f with
  | some s => ssl_cert_failures.contains s
  | none => false

/-- Python's `not failure` for an optional failure string. -/
def failureFalsy (f : Option Str) : Bool :=
  match f with
  | none => true
  | some s => s == []

/-- The `TLSObservation` fields the claims mention (certificate metadata and
handshake byte/operation counters omitted: they are fed by the external
certificate decoder or unclaimed). -/
structure TLSObservation where
  observation_id : Str
  session_id : Str
  timestamp : Int
  target : Str
  domain_name : Str
  server_name : Str
  failure : Option Str
  ip : Option Str
  port : Option Nat
  is_certificate_valid : Option Bool
deriving DecidableEq

/-- `TLSObservation.from_measurement`: server name doubles as the initial
domain name; the certificate-validity three-way decision runs only when
`no_tls_verify == False`; successful event correlation with a truthy address
re-derives IP/port and re-reads the domain from the IP-to-domain map. -/
def TLSObservation.from_measurement (msmt : Measurement) (tls_h : TLSHandshake)
    (network_events : Option (List NetworkEvent)) (idx : Nat)
    (ip_to_domain : IPDomainMap) : TLSObservation :=
  let tlso0 : TLSObservation :=
    { observation_id := obsId msmt.measurement_uid idx
      session_id := msmt.report_id
      timestamp := make_timestamp msmt tls_h.t
      target := chars ""
      server_name := tls_h.server_name.getD (chars "")
      domain_name := tls_h.server_name.getD (chars "")
      failure := normalize_failure tls_h.failure
      ip := none
      port := none
      is_certificate_valid := none }
  let tlso1 :=
    if optTruthy tls_h.address then
      let p := splitHostPort (tls_h.address.getD [])
      { tlso0 with ip := p.1, port := p.2 }
    else tlso0
  let tlso2 :=
    if tls_h.no_tls_verify = some false then
      if failureInCertList tlso1.failure then { tlso1 with is_certificate_valid := some false }
      else if failureFalsy tlso1.failure then { tlso1 with is_certificate_valid := some true }
      else tlso1
    else tlso1
  match find_tls_handshake_network_events tls_h network_events with
  | some (ne0 :: _) =>
    if optTruthy ne0.address then
      let p := splitHostPort (ne0.address.getD [])
      { tlso2 with
        ip := p.1
        port := p.2
        domain_name := dictGet ip_to_domain (p.1.getD (chars "")) (chars "") }
    else tlso2
  | _ => tlso2

/-- `observations.make_tls_observations`; the default for `ip_to_domain` is
the (never-mutated) shared empty map. -/
def make_tls_observations (msmt : Measurement) (tls_handshakes : Option (List TLSHandshake))
    (network_events : Option (List NetworkEvent)) (ip_to_domain : IPDomainMap := [])
    (target : Str := chars "") : List TLSObservation :=
  match tls_handshakes with
  | none => []
  | some l =>
    l.enum.map (fun p =>
      { TLSObservation.from_measurement msmt p.2 network_events p.1 ip_to_domain with
        target := target })

/-! ### HTTP observations -/

/-- The `HTTPObservation` fields the claims mention (the response body SHA-1
comes from the external `hashlib` and is omitted). -/
structure HTTPObservation where
  observation_id : Str
  session_id : Str
  timestamp : Int
  target : Str
  domain_name : Str
  request_url : Str
  request_is_encrypted : Bool
  request_method : Str
  request_body_length : Nat
  request_body_is_truncated : Option Bool
  x_transport : Option Str
  failure : Option Str
  response_fingerprints : List Str
  response_body_length : Option Nat
  response_body_is_truncated : Option Bool
  response_body_title : Option Str
  response_body_meta_title : Option Str
  response_status_code : Option Int
  response_header_location : Option Bytes
  response_header_server : Option Bytes
  request_redirect_from : Option Str
  fingerprint_country_consistent : Option Bool
  response_matches_blockpage : Bool
  response_matches_false_positive : Bool
deriving DecidableEq

/-- Does a fingerprint match declare expected countries containing the
probe's country? (`fp.expected_countries and probe_cc in fp.expected_countries`). -/
def fpCountryMatch (probe_cc : Str) (fp : Fingerprint) : Bool :=
  match fp.expected_countries with
  | none => false
  | some l => !(l == []) && l.contains probe_cc

/-- One iteration of the fingerprint-match loop in
`HTTPObservation.from_measurement`: scope `"fp"` sets the false-positive
flag, any other scope the blockpage flag; a country match sets the
consistency flag; the match name is appended unconditionally. -/
def applyFingerprintMatch (probe_cc : Str) (o : HTTPObservation) (fp : Fingerprint) :
    HTTPObservation :=
  let o1 :=
    if fp.scope = chars "fp" then { o with response_matches_false_positive := true }
    else { o with response_matches_blockpage := true }
  let o2 :=
    if fpCountryMatch probe_cc fp then { o1 with fingerprint_country_consistent := some true }
    else o1
  { o2 with response_fingerprints := o2.response_fingerprints ++ [fp.name] }

/-- The whole fingerprint-match loop. -/
def applyFingerprintMatches (probe_cc : Str) (o : HTTPObservation)
    (fps : List Fingerprint) : HTTPObservation :=
  fps.foldl (applyFingerprintMatch probe_cc) o

/-- The redirect-attribution `try` block of `HTTPObservation.from_measurement`:
each `none` models one caught exception (`IndexError` on the list access,
`AttributeError` on a missing response or request object,
`UnicodeDecodeError` on the Location header); an absent header yields the
empty byte string, which decodes to the empty string before comparison. -/
def attemptRedirect (requests_list : List HTTPTransaction) (idx : Nat)
    (request_url : Str) : Option Str :=
  match requests_list[idx + 1]? with
  | none => none
  | some prev =>
    match prev.response with
    | none => none
    | some resp =>
      match utf8_decode
          (get_first_http_header (chars "location") (resp.headers_list_bytes.getD [])) with
      | none => none
      | some prev_location =>
        if prev_location = request_url then
          match prev.request with
          | none => none
          | some req => some req.url
        else none

/-- `HTTPObservation.from_measurement`: a transaction without a request
yields no observation; response-dependent fields are filled only when a
response is present. -/
def HTTPObservation.from_measurement (msmt : Measurement) (idx : Nat)
    (requests_list : List HTTPTransaction) (http_transaction : HTTPTransaction)
    (fingerprintdb : FingerprintDB) : Option HTTPObservation :=
  match http_transaction.request with
  | none => none
  | some req =>
    let hrro0 : HTTPObservation :=
      { observation_id := obsId msmt.measurement_uid idx
        session_id := msmt.report_id
        timestamp := make_timestamp msmt http_transaction.t
        target := chars ""
        request_url := req.url
        domain_name := (urlHostname req.url).getD (chars "")
        request_is_encrypted := urlScheme req.url = chars "https"
        request_method := req.method.getD (chars "")
        request_body_length :=
          match req.body_bytes with
          | some b => if b ≠ [] then b.length else 0
          | none => 0
        request_body_is_truncated := req.body_is_truncated
        x_transport := req.x_transport
        failure := normalize_failure http_transaction.failure
        response_fingerprints := []
        response_body_length := none
        response_body_is_truncated := none
        response_body_title := none
        response_body_meta_title := none
        response_status_code := none
        response_header_location := none
        response_header_server := none
        request_redirect_from := none
        fingerprint_country_consistent := none
        response_matches_blockpage := false
        response_matches_false_positive := false }
    match http_transaction.response with
    | none => some hrro0
    | some resp =>
      let hrro1 := { hrro0 with response_body_is_truncated := resp.body_is_truncated }
      let hrro2 := applyFingerprintMatches msmt.probe_cc hrro1 (fingerprintdb resp)
      let hrro3 :=
        match resp.body_bytes with
        | some body =>
          if body ≠ [] then
            { hrro2 with
              response_body_length := some body.length
              response_body_title := some (get_html_title body)
              response_body_meta_title := some (get_html_meta_title body) }
          else hrro2
        | none => hrro2
      let hrro4 :=
        { hrro3 with
          response_status_code := resp.code
          response_header_location :=
            some (get_first_http_header (chars "location") (resp.headers_list_bytes.getD []))
          response_header_server :=
            some (get_first_http_header (chars "server") (resp.headers_list_bytes.getD [])) }
      let hrro5 :=
        match attemptRedirect requests_list idx hrro4.request_url with
        | some u => { hrro4 with request_redirect_from := some u }
        | none => hrro4
      some hrro5

/-- `observations.make_http_observations`: transactions without a request
are skipped, but still consume their enumeration index. -/
def make_http_observations (msmt : Measurement)
    (requests_list : Option (List HTTPTransaction)) (fingerprintdb : FingerprintDB)
    (target : Str := chars "") : List HTTPObservation :=
  match requests_list with
  | none => []
  | some l =>
    l.enum.filterMap (fun p =>
      (HTTPObservation.from_measurement msmt p.1 l p.2 fingerprintdb).map
        (fun o => { o with target := target }))

/-! ### Session grouping (`processing.dns_observations_by_session`) -/

/-- A persisted DNS observation row as the grouping loop sees it: the
session key the query orders by (`report_id`) and the measurement id. -/
structure DBDNSRow where
  report_id : Str
  measurement_uid : Str
deriving DecidableEq

/-- The grouping loop of `dns_observations_by_session`, translated
line-for-line: `acc` is `dns_obs_session`, `last` is `last_obs_session_id`
(initially `None`, and — exactly as in the source — only ever assigned
inside the yield branch, whose guard requires `last` to be truthy). -/
def sessionGroupsLoop : List DBDNSRow → List DBDNSRow → Option Str → List (List DBDNSRow)
  | [], acc, _ => if acc.length > 0 then [acc] else []
  | row :: rest, acc, last =>
    let cond :=
      match last with
      | none => false
      | some s => !(s == []) && !(s == row.report_id)
    if cond then acc :: sessionGroupsLoop rest [row] (some row.report_id)
    else sessionGroupsLoop rest (acc ++ [row]) last

/-- `processing.dns_observations_by_session`, restricted to its grouping of
the rows returned (already ordered) by the database query. -/
def dns_observations_by_session (rows : List DBDNSRow) : List (List DBDNSRow) :=
  sessionGroupsLoop rows [] none

/-- The adjacency-only grouping the spec describes: a new group starts
exactly when a row's session id differs from the immediately preceding
row's.  Modelled from the spec for comparison with the source's loop. -/
def adjacencyGroups : List DBDNSRow → List (List DBDNSRow)
  | [] => []
  | row :: rest =>
    match adjacencyGroups rest with
    | [] => [[row]]
    | (g :: gs) =>
      match g with
      | [] => [row] :: gs
      | (r :: _) =>
        if r.report_id = row.report_id then (row :: g) :: gs
        else [row] :: g :: gs

/-! ### Claim-side comparison definitions and concrete fixtures -/

/-- The certificate-validity value assigned by the `no_tls_verify == False`
block of `TLSObservation.from_measurement`, as a function of the handshake
failure alone. -/
def certValidOf (tls_h : TLSHandshake) : Option Bool :=
  if tls_h.no_tls_verify = some false then
    if failureInCertList (normalize_failure tls_h.failure) then some false
    else if failureFalsy (normalize_failure tls_h.failure) then some true
    else none
  else none

/-- Does handshake-event correlation rewrite the TLS observation's
IP/port/domain? True exactly when `find_tls_handshake_network_events`
returns a truthy (non-empty) window whose first event carries a truthy
address — the guard of the domain-overwriting branch of
`TLSObservation.from_measurement`. -/
def tlsCorrelationRewrites (tls_h : TLSHandshake)
    (network_events : Option (List NetworkEvent)) : Bool :=
  match find_tls_handshake_network_events tls_h network_events with
  | some (ne0 :: _) => optTruthy ne0.address
  | _ => false

/-- First value of the named header, case-insensitively, or `none` when the
header is absent (the claim-side notion of "header present"). -/
def findHeaderValue (name : Str) (headers : List (Str × Bytes)) : Option Bytes :=
  (headers.find? (fun p => lowerStr p.1 == lowerStr name)).map Prod.snd

/-- Redirect attribution as claim C7 words it: set to transaction `idx+1`'s
request URL exactly when that transaction exists, has a response whose
Location header is present and decodes as UTF-8 to the current request URL,
and has a request; unset in every other case. -/
def redirect_claim (requests_list : List HTTPTransaction) (idx : Nat)
    (request_url : Str) : Option Str :=
  match requests_list[idx + 1]? with
  | none => none
  | some prev =>
    match prev.response with
    | none => none
    | some resp =>
      match findHeaderValue (chars "location") (resp.headers_list_bytes.getD []) with
      | none => none
      | some v =>
        match utf8_decode v with
        | none => none
        | some loc =>
          if loc = request_url then
            match prev.request with
            | none => none
            | some r => some r.url
          else none

/-- The response-fingerprint list as claim C4 words it: exactly the names of
the matches whose scope is not `"fp"`. -/
def claimNonFpNames (fps : List Fingerprint) : List Str :=
  (fps.filter (fun fp => !decide (fp.scope = chars "fp"))).map Fingerprint.name

/-- Total number of (query, answer) pairs iterated by
`make_dns_observations`. -/
def dnsTotalAnswers (qs : List DNSQuery) : Nat :=
  (qs.map (fun q => (dnsAnswerList q).length)).sum

/-- A network event with only operation and timestamp, for the concrete C2
timeline. -/
def c2_ev (op : String) (t : Int) : NetworkEvent :=
  { operation := chars op, t := t, address := none, num_bytes := none }

/-- The timeline of the C2 testable property: one full TLS session followed
by the start of a second one. -/
def c2_timeline : List NetworkEvent :=
  [ c2_ev "connect" 1, c2_ev "write" 2, c2_ev "read" 3,
    c2_ev "tls_handshake_done" 5, c2_ev "connect" 6, c2_ev "write" 7 ]

/-- The target handshake of the C2 testable property, at `t = 5`. -/
def c2_handshake : TLSHandshake :=
  { failure := none, server_name := none, address := none, t := some 5, no_tls_verify := none }

/-- Fixture measurement for concrete evaluations. -/
def fix_msmt : Measurement :=
  { measurement_uid := chars "m", report_id := chars "r", probe_cc := chars "ZZ"
    measurement_start_time := 0 }

/-- A fingerprint match with scope `"fp"` and no expected countries. -/
def c4_fp : Fingerprint :=
  { name := chars "fpname", scope := chars "fp", expected_countries := none }

/-- An empty HTTP response fixture. -/
def c4_resp : HTTPResponse :=
  { code := none, headers_list_bytes := none, body_bytes := none, body_is_truncated := none }

/-- An HTTP transaction with request and (empty) response. -/
def c4_t : HTTPTransaction :=
  { request := some { url := chars "http://x/", method := none, body_bytes := none
                      body_is_truncated := none, x_transport := none }
    response := some c4_resp, failure := none, t := none }

/-- A fingerprint store whose HTTP rule set always yields the single
false-positive match `c4_fp`. -/
def c4_fpdb : FingerprintDB := fun _ => [c4_fp]

/-- A fingerprint store with no HTTP rules. -/
def empty_fpdb : FingerprintDB := fun _ => []

/-- A blocked-scope fingerprint match expecting country ZZ. -/
def c4w_fp2 : Fingerprint :=
  { name := chars "blocked1", scope := chars "inst", expected_countries := some [chars "ZZ"] }

/-- A fingerprint store returning one false-positive and one blocked
match. -/
def c4w_fpdb : FingerprintDB := fun _ => [c4_fp, c4w_fp2]

/-- C7 fixture: the earlier transaction, requesting `http://a/`. -/
def c7_t0 : HTTPTransaction :=
  { request := some { url := chars "http://a/", method := none, body_bytes := none
                      body_is_truncated := none, x_transport := none }
    response := some c4_resp, failure := none, t := none }

/-- C7 fixture: the later transaction, requesting `http://b/` and answering
with a Location header pointing back at `http://a/`. -/
def c7_t1 : HTTPTransaction :=
  { request := some { url := chars "http://b/", method := none, body_bytes := none
                      body_is_truncated := none, x_transport := none }
    response := some { code := some 302
                       headers_list_bytes := some [(chars "Location", chars "http://a/")]
                       body_bytes := none, body_is_truncated := none }
    failure := none, t := none }

/-- C8 fixture: a DNS query with no answers (one observation, index 0). -/
def c8_query : DNSQuery :=
  { hostname := chars "x", query_type := chars "A", failure := none, t := none
    answers := none }

/-- C8 fixture: a single TCP connect attempt (one observation, index 0). -/
def c8_tcp : TCPConnect :=
  { ip := chars "1.2.3.4", port := 80, t := none, status := { failure := none } }

/-- C6 fixture: a handshake with verification enabled and no failure. -/
def c6_handshake : TLSHandshake :=
  { failure := none, server_name := none, address := none, t := none
    no_tls_verify := some false }

/-- C10 fixture: a handshake carrying a server name, with no network events
to correlate against. -/
def c10_handshake : TLSHandshake :=
  { failure := none, server_name := some (chars "example.com"), address := none
    t := none, no_tls_verify := none }

/-- The row sequence of the C1 testable property, ordered
(session id, measurement id): sessions A, A, B, A. -/
def c1_rows : List DBDNSRow :=
  [ { report_id := chars "A", measurement_uid := chars "1" }
  , { report_id := chars "A", measurement_uid := chars "2" }
  , { report_id := chars "B", measurement_uid := chars "3" }
  , { report_id := chars "A", measurement_uid := chars "4" } ]

/-! ## Theorems -/

/-- With `last` still `None` the grouping loop can never take its yield
branch, so it accumulates every remaining row into the current group. -/
theorem sessionGroupsLoop_none_eq (rows : List DBDNSRow) :
    ∀ acc : List DBDNSRow,
      sessionGroupsLoop rows acc none = if acc ++ rows = [] then [] else [acc ++ rows] := by
  induction rows with
  | nil =>
    intro acc
    cases acc <;> simp [sessionGroupsLoop]
  | cons r rest ih =>
    intro acc
    simp only [sessionGroupsLoop]
    rw [ih (acc ++ [r])]
    simp

/-- C1: for every sequence of persisted DNS rows, the source's
`dns_observations_by_session` loop yields the whole sequence as one single
group (its `last_obs_session_id` is never assigned, so the yield branch is
unreachable).  On the spec's four-row example it therefore returns one group
of four rows, while the adjacency-only grouping the claim demands (modelled
by `adjacencyGroups`) returns three groups. -/
theorem claim_C1_session_grouping_code_bug :
    (∀ rows : List DBDNSRow,
      dns_observations_by_session rows = if rows = [] then [] else [rows])
    ∧ dns_observations_by_session c1_rows = [c1_rows]
    ∧ adjacencyGroups c1_rows
        = [ [ { report_id := chars "A", measurement_uid := chars "1" }
            , { report_id := chars "A", measurement_uid := chars "2" } ]
          , [ { report_id := chars "B", measurement_uid := chars "3" } ]
          , [ { report_id := chars "A", measurement_uid := chars "4" } ] ]
    ∧ dns_observations_by_session c1_rows ≠ adjacencyGroups c1_rows := by
  refine ⟨?_, by decide, by decide, by decide⟩
  intro rows
  unfold dns_observations_by_session
  rw [sessionGroupsLoop_none_eq]
  simp

/-- Every IPv6 address is declared a non-bogon by the source: the membership
tests run against the IPv4 table, and a family mismatch is always false. -/
theorem is_ipv6_bogon_const_false (n : Nat) : is_ipv6_bogon (some n) = false := by
  simp [is_ipv6_bogon, bogon_ipv4_ranges, inNetwork, net4]

/-- Every address of 10.0.0.0/8 is an IPv4 bogon. -/
theorem is_ipv4_bogon_private10 (n : Nat) (h1 : 10 * 2 ^ 24 ≤ n) (h2 : n < 11 * 2 ^ 24) :
    is_ipv4_bogon (some n) = true := by
  simp only [is_ipv4_bogon]
  refine List.any_eq_true.mpr ⟨net4 (10 * 2 ^ 24) 8, by simp [bogon_ipv4_ranges], ?_⟩
  simp [inNetwork, net4]
  omega

/-- Every address of 127.0.0.0/8 is an IPv4 bogon. -/
theorem is_ipv4_bogon_loopback (n : Nat) (h1 : 127 * 2 ^ 24 ≤ n) (h2 : n < 128 * 2 ^ 24) :
    is_ipv4_bogon (some n) = true := by
  simp only [is_ipv4_bogon]
  refine List.any_eq_true.mpr ⟨net4 (127 * 2 ^ 24) 8, by simp [bogon_ipv4_ranges], ?_⟩
  simp [inNetwork, net4]
  omega

/-- C3: the IPv4 half of the claim holds (10/8 and 127/8 are bogons,
8.8.8.8 is not), but `is_ipv6_bogon` returns false for *every* IPv6 address
— including ::1, fc00::/7 and 2002:c0a8::/32, which the claim (and the
source's own unused `bogon_ipv6_ranges` table, exercised here through
`is_ipv6_bogon_vs_ipv6_table`) says are bogons — because the source checks
IPv6 addresses against `bogon_ipv4_ranges`. -/
theorem claim_C3_bogon_classifier_code_bug :
    (∀ n : Nat, is_ipv6_bogon (some n) = false)
    ∧ is_ipv4_bogon (some (10 * 2 ^ 24)) = true
    ∧ is_ipv4_bogon (some (10 * 2 ^ 24 + 2 ^ 24 - 1)) = true
    ∧ is_ipv4_bogon (some (127 * 2 ^ 24)) = true
    ∧ is_ipv4_bogon (some (127 * 2 ^ 24 + 2 ^ 24 - 1)) = true
    ∧ is_ipv4_bogon (some 134744072) = false
    ∧ is_ipv6_bogon_vs_ipv6_table (some 1) = true
    ∧ is_ipv6_bogon_vs_ipv6_table (some (0xFC00 * 2 ^ 112)) = true
    ∧ is_ipv6_bogon_vs_ipv6_table (some (0x2002 * 2 ^ 112 + 0xC0A8 * 2 ^ 96)) = true
    ∧ is_ipv6_bogon_vs_ipv6_table
        (some (0x2001 * 2 ^ 112 + 0x4860 * 2 ^ 96 + 0x4860 * 2 ^ 80 + 0x8888)) = false :=
  ⟨is_ipv6_bogon_const_false, by decide, by decide, by decide, by decide, by decide,
   by decide, by decide, by decide, by decide⟩

/-- C5: on a body holding only a `<title>` tag, `get_html_title` returns the
empty string, because the source searches with the OpenGraph meta pattern —
`get_html_title` is pointwise identical to `get_html_meta_title` — while the
`TITLE_REGEXP` pattern it defines (and which does capture that title, second
conjunct) is never applied. -/
theorem claim_C5_title_extraction_code_bug :
    get_html_title (chars "<title>Hello</title>") = chars ""
    ∧ titleMatch (chars "<title>Hello</title>") 0 = some (chars "Hello")
    ∧ (∀ body : Bytes, get_html_title body = get_html_meta_title body) :=
  ⟨by decide, by decide, fun _ => rfl⟩

/-- C9: `guess_decode` returns the ASCII decoding on valid ASCII, else the
UTF-8 decoding on valid UTF-8, else the strict Latin-1 decoding (the
identity on byte values), which never fails on genuine bytes — so the
ASCII-with-invalid-bytes-dropped fallback is unreachable and the function is
total. -/
theorem claim_C9_guess_decode_order (s : List Nat)
    (hbytes : s.all (fun b => decide (b < 256)) = true) :
    (s.all (fun b => decide (b < 128)) = true → guess_decode s = s)
    ∧ (s.all (fun b => decide (b < 128)) = false →
        ∀ u, utf8_decode s = some u → guess_decode s = u)
    ∧ (s.all (fun b => decide (b < 128)) = false →
        utf8_decode s = none → guess_decode s = s)
    ∧ latin1_decode s = some s := by
  refine ⟨?_, ?_, ?_, ?_⟩
  · intro h
    simp [guess_decode, ascii_decode, h]
  · intro h u hu
    simp [guess_decode, ascii_decode, h, hu]
  · intro h hu
    simp [guess_decode, ascii_decode, latin1_decode, h, hu, hbytes]
  · simp [latin1_decode, hbytes]

/-- Witness for C9: valid ASCII is returned as is; the non-ASCII UTF-8
encoding of `é` decodes to code point 233; an invalid-UTF-8 byte string is
returned via Latin-1 unchanged. -/
theorem claim_C9_witness :
    guess_decode [104] = [104] ∧ guess_decode [195, 169] = [233]
    ∧ guess_decode [255, 65] = [255, 65] :=
  ⟨(claim_C9_guess_decode_order [104] (by decide)).1 (by decide),
   (claim_C9_guess_decode_order [195, 169] (by decide)).2.1 (by decide) [233] (by decide),
   (claim_C9_guess_decode_order [255, 65] (by decide)).2.2.1 (by decide) (by decide)⟩

/-- If no event of the remaining timeline is a `tls_handshake_done` with the
handshake's timestamp, the scanning loop returns no correlation, whatever
the current window. -/
theorem findTLSLoop_no_match (tls_t : Option Int) :
    ∀ (evs window : List NetworkEvent),
      (∀ ne ∈ evs, ¬(ne.operation = chars "tls_handshake_done" ∧ tls_t = some ne.t)) →
      findTLSLoop tls_t evs window = none := by
  intro evs
  induction evs with
  | nil => intro window _; rfl
  | cons ne rest ih =>
    intro window h
    simp only [findTLSLoop]
    rw [if_neg (h ne (List.mem_cons_self _ _))]
    exact ih _ (fun x hx => h x (List.mem_cons_of_mem _ hx))

/-- Counterexample to C2: on the spec's own timeline (connect, write, read,
tls_handshake_done at t=5, connect, write) the correlation returns *five*
events — the matched `tls_handshake_done` appears twice, once from the scan
window and once from the `network_events[idx:]` tail — not the first four
events. -/
theorem claim_C2_counterexample :
    find_tls_handshake_network_events c2_handshake (some c2_timeline)
      = some [ c2_ev "connect" 1, c2_ev "write" 2, c2_ev "read" 3,
               c2_ev "tls_handshake_done" 5, c2_ev "tls_handshake_done" 5 ]
    ∧ ([ c2_ev "connect" 1, c2_ev "write" 2, c2_ev "read" 3,
         c2_ev "tls_handshake_done" 5, c2_ev "tls_handshake_done" 5 ] : List NetworkEvent)
        ≠ c2_timeline.take 4 :=
  ⟨by decide, by decide⟩

/-- C2 amended: on that timeline the correlation returns the first four
events followed by one duplicate of the matched `tls_handshake_done` event;
and whenever the timeline is absent or contains no `tls_handshake_done`
event with the handshake's timestamp, it returns no correlation. -/
theorem claim_C2_amended_correlation :
    find_tls_handshake_network_events c2_handshake (some c2_timeline)
      = some (c2_timeline.take 4 ++ [c2_ev "tls_handshake_done" 5])
    ∧ (∀ (tls_h : TLSHandshake) (evs : List NetworkEvent),
        (∀ ne ∈ evs, ¬(ne.operation = chars "tls_handshake_done" ∧ tls_h.t = some ne.t)) →
        find_tls_handshake_network_events tls_h (some evs) = none)
    ∧ (∀ tls_h : TLSHandshake, find_tls_handshake_network_events tls_h none = none) := by
  refine ⟨by decide, ?_, fun _ => rfl⟩
  intro tls_h evs h
  cases evs with
  | nil => rfl
  | cons ne rest =>
    simpa only [find_tls_handshake_network_events] using
      findTLSLoop_no_match tls_h.t (ne :: rest) [] h

/-- Witness for C2's universal part: a timeline with a single `connect`
event has no matching handshake completion, so no correlation is returned. -/
theorem claim_C2_witness :
    find_tls_handshake_network_events c2_handshake (some [c2_ev "connect" 1]) = none :=
  claim_C2_amended_correlation.2.1 c2_handshake [c2_ev "connect" 1] (by decide)

/-- The certificate-validity field of a built TLS observation depends only
on the handshake's `no_tls_verify` flag and failure (the event-correlation
branch never touches it). -/
theorem tls_from_measurement_cert_valid (msmt : Measurement) (tls_h : TLSHandshake)
    (events : Option (List NetworkEvent)) (idx : Nat) (m : IPDomainMap) :
    (TLSObservation.from_measurement msmt tls_h events idx m).is_certificate_valid
      = certValidOf tls_h := by
  simp only [TLSObservation.from_measurement, certValidOf, normalize_failure]
  cases hfind : find_tls_handshake_network_events tls_h events with
  | none =>
    by_cases ha : optTruthy tls_h.address = true <;>
    by_cases hnv : tls_h.no_tls_verify = some false <;>
    by_cases hcert : failureInCertList tls_h.failure = true <;>
    by_cases hfal : failureFalsy tls_h.failure = true <;>
    simp [ha, hnv, hcert, hfal]
  | some l =>
    cases l with
    | nil =>
      by_cases ha : optTruthy tls_h.address = true <;>
      by_cases hnv : tls_h.no_tls_verify = some false <;>
      by_cases hcert : failureInCertList tls_h.failure = true <;>
      by_cases hfal : failureFalsy tls_h.failure = true <;>
      simp [ha, hnv, hcert, hfal]
    | cons ne0 tail =>
      by_cases h2 : optTruthy ne0.address = true <;>
      by_cases ha : optTruthy tls_h.address = true <;>
      by_cases hnv : tls_h.no_tls_verify = some false <;>
      by_cases hcert : failureInCertList tls_h.failure = true <;>
      by_cases hfal : failureFalsy tls_h.failure = true <;>
      simp [h2, ha, hnv, hcert, hfal]

/-- C6: when certificate verification is not disabled
(`no_tls_verify == False`), the observation's validity verdict is `False`
exactly on the three certificate failures, `True` exactly when there is no
failure, and unset otherwise; when `no_tls_verify` is `True` it is always
unset.  The hypothesis excludes the degenerate empty-string failure, which
the measurement format never carries (a failure is null or a non-empty
string). -/
theorem claim_C6_certificate_validity (msmt : Measurement) (tls_h : TLSHandshake)
    (events : Option (List NetworkEvent)) (idx : Nat) (m : IPDomainMap)
    (hwf : tls_h.failure ≠ some []) :
    (tls_h.no_tls_verify = some false →
      ((TLSObservation.from_measurement msmt tls_h events idx m).is_certificate_valid
          = some false ↔ (∃ s, tls_h.failure = some s ∧ s ∈ ssl_cert_failures))
      ∧ ((TLSObservation.from_measurement msmt tls_h events idx m).is_certificate_valid
          = some true ↔ tls_h.failure = none)
      ∧ (¬(∃ s, tls_h.failure = some s ∧ s ∈ ssl_cert_failures) → tls_h.failure ≠ none →
          (TLSObservation.from_measurement msmt tls_h events idx m).is_certificate_valid
            = none))
    ∧ (tls_h.no_tls_verify = some true →
        (TLSObservation.from_measurement msmt tls_h events idx m).is_certificate_valid
          = none) := by
  simp only [tls_from_measurement_cert_valid msmt tls_h events idx m]
  constructor
  · intro hnv
    simp only [certValidOf, normalize_failure, hnv, if_pos]
    cases hf : tls_h.failure with
    | none => simp [failureInCertList, failureFalsy]
    | some s =>
      have hs : ¬s = [] := by
        intro h
        exact hwf (by rw [hf, h])
      by_cases hmem : s ∈ ssl_cert_failures
      · simp [failureInCertList, hmem]
      · simp [failureInCertList, failureFalsy, hmem, hs]
  · intro hnv
    simp [certValidOf, hnv]

/-- Witness for C6: verification enabled and no failure yields a valid
certificate verdict. -/
theorem claim_C6_witness :
    (TLSObservation.from_measurement fix_msmt c6_handshake none 0 []).is_certificate_valid
      = some true :=
  ((claim_C6_certificate_validity fix_msmt c6_handshake none 0 [] (by decide)).1
    rfl).2.1.mpr rfl

/-- The source's first-header lookup equals the claim-side `find?`-based
lookup with empty-byte-string default. -/
theorem getFirstHeaderLoop_eq_find (name : Str) :
    ∀ headers : List (Str × Bytes),
      getFirstHeaderLoop (lowerStr name) false headers
        = ((headers.find? (fun p => lowerStr p.1 == lowerStr name)).map Prod.snd).getD [] := by
  intro headers
  induction headers with
  | nil => rfl
  | cons p rest ih =>
    cases p with
    | mk k v =>
      by_cases hk : lowerStr k = lowerStr name
      · simp [getFirstHeaderLoop, List.find?, hk]
      · have hkb : (lowerStr k == lowerStr name) = false := by
          simpa using hk
        simp [getFirstHeaderLoop, List.find?, hk, hkb, ih]

theorem get_first_http_header_eq_find (name : Str) (headers : List (Str × Bytes)) :
    get_first_http_header name headers = (findHeaderValue name headers).getD [] := by
  simpa [get_first_http_header, findHeaderValue] using getFirstHeaderLoop_eq_find name headers

/-- The redirect-attribution `try` block agrees with the claim's wording
whenever the current request URL is non-empty: the only difference — an
absent Location header is read as the empty byte string rather than skipped
— is then unobservable, since the empty string cannot equal the URL. -/
theorem attemptRedirect_eq_claim (rl : List HTTPTransaction) (idx : Nat) (url : Str)
    (hurl : url ≠ []) : attemptRedirect rl idx url = redirect_claim rl idx url := by
  cases h1 : rl[idx + 1]? with
  | none => simp [attemptRedirect, redirect_claim, h1]
  | some prev =>
    cases h2 : prev.response with
    | none => simp [attemptRedirect, redirect_claim, h1, h2]
    | some resp =>
      cases h3 : findHeaderValue (chars "location") (resp.headers_list_bytes.getD []) with
      | none =>
        have e := get_first_http_header_eq_find (chars "location")
          (resp.headers_list_bytes.getD [])
        rw [h3] at e
        simp only [Option.getD_none] at e
        simp only [attemptRedirect, redirect_claim, h1, h2, h3, e]
        have hd : utf8_decode ([] : List Nat) = some [] := rfl
        have hne : ¬(([] : Str) = url) := fun h => hurl (Eq.symm h)
        rw [hd]
        simp [hne]
      | some v =>
        have e := get_first_http_header_eq_find (chars "location")
          (resp.headers_list_bytes.getD [])
        rw [h3] at e
        simp only [attemptRedirect, redirect_claim, h1, h2, h3, e, Option.getD_some]

/-- One fingerprint-loop iteration never changes the request URL. -/
theorem applyFingerprintMatch_request_url (cc : Str) (o : HTTPObservation)
    (fp : Fingerprint) : (applyFingerprintMatch cc o fp).request_url = o.request_url := by
  simp only [applyFingerprintMatch]
  split <;> split <;> rfl

/-- One fingerprint-loop iteration never changes the observation id. -/
theorem applyFingerprintMatch_oid (cc : Str) (o : HTTPObservation)
    (fp : Fingerprint) : (applyFingerprintMatch cc o fp).observation_id = o.observation_id := by
  simp only [applyFingerprintMatch]
  split <;> split <;> rfl

/-- One fingerprint-loop iteration never changes the redirect field. -/
theorem applyFingerprintMatch_redirect (cc : Str) (o : HTTPObservation)
    (fp : Fingerprint) :
    (applyFingerprintMatch cc o fp).request_redirect_from = o.request_redirect_from := by
  simp only [applyFingerprintMatch]
  split <;> split <;> rfl

/-- The fingerprint loop never changes the request URL. -/
theorem applyFingerprintMatches_request_url (cc : Str) (fps : List Fingerprint) :
    ∀ o : HTTPObservation, (applyFingerprintMatches cc o fps).request_url = o.request_url := by
  induction fps with
  | nil => intro o; rfl
  | cons fp fps ih =>
    intro o
    show (applyFingerprintMatches cc (applyFingerprintMatch cc o fp) fps).request_url = _
    rw [ih, applyFingerprintMatch_request_url]

/-- The fingerprint loop never changes the observation id. -/
theorem applyFingerprintMatches_oid (cc : Str) (fps : List Fingerprint) :
    ∀ o : HTTPObservation,
      (applyFingerprintMatches cc o fps).observation_id = o.observation_id := by
  induction fps with
  | nil => intro o; rfl
  | cons fp fps ih =>
    intro o
    show (applyFingerprintMatches cc (applyFingerprintMatch cc o fp) fps).observation_id = _
    rw [ih, applyFingerprintMatch_oid]

/-- The fingerprint loop never changes the redirect field. -/
theorem applyFingerprintMatches_redirect (cc : Str) (fps : List Fingerprint) :
    ∀ o : HTTPObservation,
      (applyFingerprintMatches cc o fps).request_redirect_from = o.request_redirect_from := by
  induction fps with
  | nil => intro o; rfl
  | cons fp fps ih =>
    intro o
    show (applyFingerprintMatches cc (applyFingerprintMatch cc o fp) fps).request_redirect_from
      = _
    rw [ih, applyFingerprintMatch_redirect]

/-- The built HTTP observation's redirect field is exactly the result of the
redirect `try` block applied to the transaction's request URL; in
particular the observation is always built (never fails) when a request is
present. -/
theorem http_from_measurement_redirect (msmt : Measurement) (idx : Nat)
    (rl : List HTTPTransaction) (t : HTTPTransaction) (fpdb : FingerprintDB)
    (req : HTTPRequest) (resp : HTTPResponse)
    (hreq : t.request = some req) (hresp : t.response = some resp) :
    (HTTPObservation.from_measurement msmt idx rl t fpdb).map
        (fun o => o.request_redirect_from)
      = some (attemptRedirect rl idx req.url) := by
  simp only [HTTPObservation.from_measurement, hreq, hresp]
  cases hbody : resp.body_bytes with
  | none =>
    simp only [Option.map_some', applyFingerprintMatches_request_url,
      applyFingerprintMatches_redirect]
    cases hatt : attemptRedirect rl idx req.url <;> simp [hatt]
  | some body =>
    by_cases hb : body = [] <;>
      simp only [hb, if_pos, if_neg, Option.map_some', ne_eq, not_true_eq_false,
        not_false_eq_true, ite_true, ite_false, applyFingerprintMatches_request_url,
        applyFingerprintMatches_redirect] <;>
      cases hatt : attemptRedirect rl idx req.url <;>
      simp [hatt, applyFingerprintMatches_request_url, applyFingerprintMatches_redirect]

/-- C7: for a transaction with a request (non-empty URL) and a response, the
built observation's "redirected from" field is set to transaction `idx+1`'s
request URL exactly when that transaction exists, has a response whose
Location header is present and UTF-8-decodes to the current request URL, and
has a request; in every other case (index out of range, missing response or
request, undecodable or absent header) the field is unset, and the
observation is still built without failure. -/
theorem claim_C7_redirect_attribution (msmt : Measurement) (idx : Nat)
    (rl : List HTTPTransaction) (t : HTTPTransaction) (fpdb : FingerprintDB)
    (req : HTTPRequest) (resp : HTTPResponse)
    (hreq : t.request = some req) (hresp : t.response = some resp)
    (hurl : req.url ≠ []) :
    (HTTPObservation.from_measurement msmt idx rl t fpdb).map
        (fun o => o.request_redirect_from)
      = some (redirect_claim rl idx req.url) := by
  rw [http_from_measurement_redirect msmt idx rl t fpdb req resp hreq hresp,
      attemptRedirect_eq_claim rl idx req.url hurl]

/-- Witness for C7: transaction 1's Location header equals transaction 0's
request URL, so transaction 0 is attributed as redirected from
transaction 1's request URL. -/
theorem claim_C7_witness :
    (HTTPObservation.from_measurement fix_msmt 0 [c7_t0, c7_t1] c7_t0 empty_fpdb).map
        (fun o => o.request_redirect_from)
      = some (some (chars "http://b/")) := by
  rw [claim_C7_redirect_attribution fix_msmt 0 [c7_t0, c7_t1] c7_t0 empty_fpdb
      { url := chars "http://a/", method := none, body_bytes := none
        body_is_truncated := none, x_transport := none }
      c4_resp rfl rfl (by decide)]
  decide

/-- C10 amended: the TCP and TLS builders read the IP-to-domain map only
through lookups (observations depend on the map only up to lookup
extensionality), so the shared default map stays empty; with that default,
every TCP observation's domain name is empty, and a TLS observation's domain
name is empty exactly when handshake-event correlation with a truthy address
rewrites it (`tlsCorrelationRewrites`), and otherwise is exactly the
handshake's server name. -/
theorem claim_C10_amended_frame :
    (∀ (msmt : Measurement) (res : TCPConnect) (idx : Nat) (m1 m2 : IPDomainMap),
        (∀ k : Str, dictGet m1 k (chars "") = dictGet m2 k (chars "")) →
        TCPObservation.from_measurement msmt res idx m1
          = TCPObservation.from_measurement msmt res idx m2)
    ∧ (∀ (msmt : Measurement) (tls_h : TLSHandshake) (events : Option (List NetworkEvent))
          (idx : Nat) (m1 m2 : IPDomainMap),
        (∀ k : Str, dictGet m1 k (chars "") = dictGet m2 k (chars "")) →
        TLSObservation.from_measurement msmt tls_h events idx m1
          = TLSObservation.from_measurement msmt tls_h events idx m2)
    ∧ (∀ (msmt : Measurement) (res : TCPConnect) (idx : Nat),
        (TCPObservation.from_measurement msmt res idx []).domain_name = chars "")
    ∧ (∀ (msmt : Measurement) (tls_h : TLSHandshake) (events : Option (List NetworkEvent))
          (idx : Nat),
        (TLSObservation.from_measurement msmt tls_h events idx []).domain_name
          = (if tlsCorrelationRewrites tls_h events then chars ""
             else tls_h.server_name.getD (chars ""))) := by
  refine ⟨?_, ?_, ?_, ?_⟩
  · intro msmt res idx m1 m2 h
    simp [TCPObservation.from_measurement, h res.ip]
  · intro msmt tls_h events idx m1 m2 h
    simp only [TLSObservation.from_measurement]
    cases hfind : find_tls_handshake_network_events tls_h events with
    | none => rfl
    | some l =>
      cases l with
      | nil => rfl
      | cons ne0 tail =>
        by_cases haddr : optTruthy ne0.address = true
        · simp only [haddr, if_pos, ite_true, h]
        · simp only [haddr, Bool.false_eq_true, ite_false, if_neg]
  · intro msmt res idx
    simp [TCPObservation.from_measurement, dictGet]
  · intro msmt tls_h events idx
    simp only [TLSObservation.from_measurement]
    cases hfind : find_tls_handshake_network_events tls_h events with
    | none =>
      have hr : tlsCorrelationRewrites tls_h events = false := by
        simp [tlsCorrelationRewrites, hfind]
      rw [hr]
      by_cases ha : optTruthy tls_h.address = true <;>
      by_cases hnv : tls_h.no_tls_verify = some false <;>
      by_cases hcert : failureInCertList (normalize_failure tls_h.failure) = true <;>
      by_cases hfal : failureFalsy (normalize_failure tls_h.failure) = true <;>
      simp [ha, hnv, hcert, hfal]
    | some l =>
      cases l with
      | nil =>
        have hr : tlsCorrelationRewrites tls_h events = false := by
          simp [tlsCorrelationRewrites, hfind]
        rw [hr]
        by_cases ha : optTruthy tls_h.address = true <;>
        by_cases hnv : tls_h.no_tls_verify = some false <;>
        by_cases hcert : failureInCertList (normalize_failure tls_h.failure) = true <;>
        by_cases hfal : failureFalsy (normalize_failure tls_h.failure) = true <;>
        simp [ha, hnv, hcert, hfal]
      | cons ne0 tail =>
        have hr : tlsCorrelationRewrites tls_h events = optTruthy ne0.address := by
          simp [tlsCorrelationRewrites, hfind]
        rw [hr]
        by_cases haddr : optTruthy ne0.address = true
        · simp [haddr, dictGet]
        · by_cases ha : optTruthy tls_h.address = true <;>
          by_cases hnv : tls_h.no_tls_verify = some false <;>
          by_cases hcert : failureInCertList (normalize_failure tls_h.failure) = true <;>
          by_cases hfal : failureFalsy (normalize_failure tls_h.failure) = true <;>
          simp [haddr, ha, hnv, hcert, hfal]

/-- Witness for C10: two syntactically different but lookup-agreeing maps
(the empty map against a one-entry map whose sole value is the empty
string) give equal TCP and TLS observations; the default map yields an
empty TCP domain; and the TLS observation of a handshake with no
correlatable events falls in the otherwise-branch of the conditional,
keeping its server name. -/
theorem claim_C10_witness :
    TCPObservation.from_measurement fix_msmt c8_tcp 0 []
        = TCPObservation.from_measurement fix_msmt c8_tcp 0 [(chars "a", chars "")]
    ∧ TLSObservation.from_measurement fix_msmt c10_handshake none 0 []
        = TLSObservation.from_measurement fix_msmt c10_handshake none 0
            [(chars "a", chars "")]
    ∧ (TCPObservation.from_measurement fix_msmt c8_tcp 0 []).domain_name = chars ""
    ∧ (TLSObservation.from_measurement fix_msmt c10_handshake none 0 []).domain_name
        = (if tlsCorrelationRewrites c10_handshake none then chars ""
           else c10_handshake.server_name.getD (chars "")) := by
  have h : ∀ k : Str, dictGet [] k (chars "") = dictGet [(chars "a", chars "")] k (chars "") := by
    intro k
    simp only [dictGet, List.find?]
    cases hb : ((chars "a" : Str) == k) <;> simp [hb]
  exact ⟨claim_C10_amended_frame.1 fix_msmt c8_tcp 0 [] [(chars "a", chars "")] h,
    claim_C10_amended_frame.2.1 fix_msmt c10_handshake none 0 [] [(chars "a", chars "")] h,
    claim_C10_amended_frame.2.2.1 fix_msmt c8_tcp 0,
    claim_C10_amended_frame.2.2.2 fix_msmt c10_handshake none 0⟩

/-- Counterexample to C10's final clause: a TLS handshake carrying a server
name but no correlatable network events produces, with the default (empty)
map, an observation whose domain name is the server name — not empty. -/
theorem claim_C10_counterexample :
    (TLSObservation.from_measurement fix_msmt c10_handshake none 0 []).domain_name
      = chars "example.com"
    ∧ chars "example.com" ≠ chars "" :=
  ⟨by decide, by decide⟩

/-- One fingerprint-loop iteration: the false-positive flag picks up scope
`"fp"`. -/
theorem applyFingerprintMatch_fp_flag (cc : Str) (o : HTTPObservation) (fp : Fingerprint) :
    (applyFingerprintMatch cc o fp).response_matches_false_positive
      = (o.response_matches_false_positive || decide (fp.scope = chars "fp")) := by
  simp only [applyFingerprintMatch]
  by_cases h : fp.scope = chars "fp" <;>
    by_cases h2 : fpCountryMatch cc fp = true <;> simp [h, h2]

/-- One fingerprint-loop iteration: the blockpage flag picks up any other
scope. -/
theorem applyFingerprintMatch_bp_flag (cc : Str) (o : HTTPObservation) (fp : Fingerprint) :
    (applyFingerprintMatch cc o fp).response_matches_blockpage
      = (o.response_matches_blockpage || !decide (fp.scope = chars "fp")) := by
  simp only [applyFingerprintMatch]
  by_cases h : fp.scope = chars "fp" <;>
    by_cases h2 : fpCountryMatch cc fp = true <;> simp [h, h2]

/-- One fingerprint-loop iteration appends the match name unconditionally. -/
theorem applyFingerprintMatch_names (cc : Str) (o : HTTPObservation) (fp : Fingerprint) :
    (applyFingerprintMatch cc o fp).response_fingerprints
      = o.response_fingerprints ++ [fp.name] := by
  simp only [applyFingerprintMatch]
  by_cases h : fp.scope = chars "fp" <;>
    by_cases h2 : fpCountryMatch cc fp = true <;> simp [h, h2]

/-- One fingerprint-loop iteration: the country-consistency flag is set to
true on a country match and untouched otherwise. -/
theorem applyFingerprintMatch_fcc (cc : Str) (o : HTTPObservation) (fp : Fingerprint) :
    (applyFingerprintMatch cc o fp).fingerprint_country_consistent
      = (if fpCountryMatch cc fp then some true else o.fingerprint_country_consistent) := by
  simp only [applyFingerprintMatch]
  by_cases h : fp.scope = chars "fp" <;>
    by_cases h2 : fpCountryMatch cc fp = true <;> simp [h, h2]

/-- The fingerprint loop sets the false-positive flag exactly when some
match has scope `"fp"` (starting from the given flag value). -/
theorem applyFingerprintMatches_fp_flag (cc : Str) (fps : List Fingerprint) :
    ∀ o : HTTPObservation,
      (applyFingerprintMatches cc o fps).response_matches_false_positive
        = (o.response_matches_false_positive
            || fps.any (fun fp => decide (fp.scope = chars "fp"))) := by
  induction fps with
  | nil => intro o; simp [applyFingerprintMatches]
  | cons fp fps ih =>
    intro o
    show (applyFingerprintMatches cc
        (applyFingerprintMatch cc o fp) fps).response_matches_false_positive = _
    rw [ih, applyFingerprintMatch_fp_flag]
    simp [Bool.or_assoc]

/-- The fingerprint loop sets the blockpage flag exactly when some match has
a scope other than `"fp"`. -/
theorem applyFingerprintMatches_bp_flag (cc : Str) (fps : List Fingerprint) :
    ∀ o : HTTPObservation,
      (applyFingerprintMatches cc o fps).response_matches_blockpage
        = (o.response_matches_blockpage
            || fps.any (fun fp => !decide (fp.scope = chars "fp"))) := by
  induction fps with
  | nil => intro o; simp [applyFingerprintMatches]
  | cons fp fps ih =>
    intro o
    show (applyFingerprintMatches cc
        (applyFingerprintMatch cc o fp) fps).response_matches_blockpage = _
    rw [ih, applyFingerprintMatch_bp_flag]
    simp [Bool.or_assoc]

/-- The fingerprint loop appends the names of all matches, in order,
regardless of scope. -/
theorem applyFingerprintMatches_names (cc : Str) (fps : List Fingerprint) :
    ∀ o : HTTPObservation,
      (applyFingerprintMatches cc o fps).response_fingerprints
        = o.response_fingerprints ++ fps.map Fingerprint.name := by
  induction fps with
  | nil => intro o; simp [applyFingerprintMatches]
  | cons fp fps ih =>
    intro o
    show (applyFingerprintMatches cc
        (applyFingerprintMatch cc o fp) fps).response_fingerprints = _
    rw [ih, applyFingerprintMatch_names]
    simp

/-- The fingerprint loop sets the country-consistency flag to true exactly
when some match's declared expected countries contain the probe country. -/
theorem applyFingerprintMatches_fcc (cc : Str) (fps : List Fingerprint) :
    ∀ o : HTTPObservation,
      (applyFingerprintMatches cc o fps).fingerprint_country_consistent
        = (if fps.any (fpCountryMatch cc) then some true
           else o.fingerprint_country_consistent) := by
  induction fps with
  | nil => intro o; simp [applyFingerprintMatches]
  | cons fp fps ih =>
    intro o
    show (applyFingerprintMatches cc
        (applyFingerprintMatch cc o fp) fps).fingerprint_country_consistent = _
    rw [ih, applyFingerprintMatch_fcc]
    by_cases h1 : fps.any (fpCountryMatch cc) = true <;>
      by_cases h2 : fpCountryMatch cc fp = true <;> simp [h1, h2]

/-- C4 amended: for a transaction with request and response, the built
observation's false-positive flag is set exactly when some match has scope
`"fp"`, the blockpage flag exactly when some match has any other scope, the
response-fingerprint list collects the names of *all* matches (the
false-positive ones included), and the country-consistency flag is set to
true exactly when some match's expected countries contain the probe's
country (otherwise left unset). -/
theorem claim_C4_amended_fingerprint_matching (msmt : Measurement) (idx : Nat)
    (rl : List HTTPTransaction) (t : HTTPTransaction) (fpdb : FingerprintDB)
    (req : HTTPRequest) (resp : HTTPResponse)
    (hreq : t.request = some req) (hresp : t.response = some resp) :
    (HTTPObservation.from_measurement msmt idx rl t fpdb).map
        (fun o => (o.response_matches_false_positive, o.response_matches_blockpage,
                   o.response_fingerprints, o.fingerprint_country_consistent))
      = some ((fpdb resp).any (fun fp => decide (fp.scope = chars "fp")),
              (fpdb resp).any (fun fp => !decide (fp.scope = chars "fp")),
              (fpdb resp).map Fingerprint.name,
              if (fpdb resp).any (fpCountryMatch msmt.probe_cc) then some true
              else none) := by
  simp only [HTTPObservation.from_measurement, hreq, hresp]
  cases hbody : resp.body_bytes with
  | none =>
    cases hatt : attemptRedirect rl idx req.url <;>
      simp [hatt, applyFingerprintMatches_request_url, applyFingerprintMatches_fp_flag,
        applyFingerprintMatches_bp_flag, applyFingerprintMatches_names,
        applyFingerprintMatches_fcc]
  | some body =>
    by_cases hb : body = [] <;>
      cases hatt : attemptRedirect rl idx req.url <;>
      simp [hatt, hb, applyFingerprintMatches_request_url, applyFingerprintMatches_fp_flag,
        applyFingerprintMatches_bp_flag, applyFingerprintMatches_names,
        applyFingerprintMatches_fcc]

/-- Witness for C4: one `"fp"`-scoped match and one blocked-scope match with
a matching expected country set both flags, list both names, and set the
country-consistency flag. -/
theorem claim_C4_witness :
    (HTTPObservation.from_measurement fix_msmt 0 [c4_t] c4_t c4w_fpdb).map
        (fun o => (o.response_matches_false_positive, o.response_matches_blockpage,
                   o.response_fingerprints, o.fingerprint_country_consistent))
      = some (true, true, [chars "fpname", chars "blocked1"], some true) := by
  rw [claim_C4_amended_fingerprint_matching fix_msmt 0 [c4_t] c4_t c4w_fpdb
      { url := chars "http://x/", method := none, body_bytes := none
        body_is_truncated := none, x_transport := none }
      c4_resp rfl rfl]
  decide

/-- Counterexample to C4: a single match with scope `"fp"` is nevertheless
appended to the response-fingerprint list, which the claim says should then
be empty. -/
theorem claim_C4_counterexample :
    (HTTPObservation.from_measurement fix_msmt 0 [c4_t] c4_t c4_fpdb).map
        (fun o => o.response_fingerprints) = some [chars "fpname"]
    ∧ claimNonFpNames [c4_fp] = []
    ∧ (HTTPObservation.from_measurement fix_msmt 0 [c4_t] c4_t c4_fpdb).map
        (fun o => o.response_fingerprints) ≠ some (claimNonFpNames [c4_fp]) :=
  ⟨by decide, by decide, by decide⟩

/-- Reading the decimal digits back recovers the number: `natDigits` is a
section of `Nat.ofDigits 10`. -/
theorem ofDigits_natDigits (n : Nat) : Nat.ofDigits 10 (natDigits n) = n := by
  unfold natDigits
  split
  · simp [Nat.ofDigits, *]
  · exact Nat.ofDigits_digits 10 n

/-- Python's decimal rendering of a natural number is injective. -/
theorem strOfNat_injective : Function.Injective strOfNat := by
  have h : Function.LeftInverse
      (fun s : Str => Nat.ofDigits 10 ((s.map (fun d => d - 48)).reverse)) strOfNat := by
    intro n
    simp only [strOfNat, List.map_map, List.map_reverse, List.reverse_reverse]
    have : ((fun d => d - 48) ∘ fun d : Nat => 48 + d) = id := by
      funext d
      simp
    rw [this, List.map_id]
    exact ofDigits_natDigits n
  exact h.injective

/-- For one fixed measurement uid, distinct sequence indices give distinct
observation ids. -/
theorem obsId_injective (uid : Str) : Function.Injective (obsId uid) := by
  intro i j h
  apply strOfNat_injective
  have h2 := congrArg (List.drop uid.length) h
  simpa [obsId] using h2

/-- The id of a DNS observation is the uid followed by the sequence index,
whatever the answer. -/
theorem dns_from_measurement_oid (msmt : Measurement) (q : DNSQuery)
    (a : Option DNSAnswer) (idx : Nat) :
    (DNSObservation.from_measurement msmt q a idx).observation_id
      = obsId msmt.measurement_uid idx := by
  cases a with
  | none => rfl
  | some a =>
    simp only [DNSObservation.from_measurement]
    by_cases h4 : optTruthy a.ipv4 = true <;>
      by_cases h6 : optTruthy a.ipv6 = true <;>
      by_cases hh : optTruthy a.hostname = true <;>
      simp [h4, h6, hh]

/-- Splitting a contiguous index range. -/
theorem range'_split (a : Nat) :
    ∀ s b : Nat, List.range' s (a + b) = List.range' s a ++ List.range' (s + a) b := by
  induction a with
  | zero => intro s b; simp
  | succ a ih =>
    intro s b
    have h1 : a + 1 + b = (a + b) + 1 := by omega
    rw [h1, List.range'_succ, List.range'_succ, ih (s + 1) b]
    have h2 : s + 1 + a = s + (a + 1) := by omega
    rw [h2, List.cons_append]

/-- The inner DNS loop assigns the ids of the consecutive index range
starting at its running index. -/
theorem dnsAnswersLoop_ids (msmt : Measurement) (target : Str) (q : DNSQuery) :
    ∀ (ans : List (Option DNSAnswer)) (idx : Nat),
      (dnsAnswersLoop msmt target q ans idx).map (fun o => o.observation_id)
        = (List.range' idx ans.length).map (obsId msmt.measurement_uid) := by
  intro ans
  induction ans with
  | nil => intro idx; rfl
  | cons a rest ih =>
    intro idx
    simp only [dnsAnswersLoop, List.map_cons, List.length_cons, List.range'_succ, ih]
    congr 1
    exact dns_from_measurement_oid msmt q a idx

/-- The outer DNS loop assigns the ids of the consecutive index range of the
total (query, answer) count. -/
theorem dnsQueriesLoop_ids (msmt : Measurement) (target : Str) :
    ∀ (qs : List DNSQuery) (idx : Nat),
      (dnsQueriesLoop msmt target qs idx).map (fun o => o.observation_id)
        = (List.range' idx (dnsTotalAnswers qs)).map (obsId msmt.measurement_uid) := by
  intro qs
  induction qs with
  | nil => intro idx; rfl
  | cons q rest ih =>
    intro idx
    simp only [dnsQueriesLoop, List.map_append, dnsAnswersLoop_ids, ih,
      dnsTotalAnswers, List.map_cons, List.sum_cons]
    rw [range'_split (dnsAnswerList q).length idx ((rest.map fun q => (dnsAnswerList q).length).sum),
      List.map_append]

/-- Ids assigned by `make_dns_observations`: uid plus consecutive decimal
indices from zero. -/
theorem make_dns_observations_ids (msmt : Measurement) (qs : List DNSQuery) (target : Str) :
    (make_dns_observations msmt (some qs) target).map (fun o => o.observation_id)
      = (List.range' 0 (dnsTotalAnswers qs)).map (obsId msmt.measurement_uid) := by
  by_cases h : qs = []
  · subst h; rfl
  · simp only [make_dns_observations, if_neg h]
    exact dnsQueriesLoop_ids msmt target qs 0

/-- Ids assigned by `make_tcp_observations`: uid plus the enumeration
index. -/
theorem make_tcp_observations_ids (msmt : Measurement) (l : List TCPConnect)
    (m : IPDomainMap) (target : Str) :
    (make_tcp_observations msmt (some l) m target).map (fun o => o.observation_id)
      = (List.range l.length).map (obsId msmt.measurement_uid) := by
  have h1 : (make_tcp_observations msmt (some l) m target).map (fun o => o.observation_id)
      = l.enum.map (fun p => obsId msmt.measurement_uid p.1) := by
    simp only [make_tcp_observations, List.map_map]
    rfl
  rw [h1, show (fun p : Nat × TCPConnect => obsId msmt.measurement_uid p.1)
      = (obsId msmt.measurement_uid) ∘ Prod.fst from rfl, ← List.map_map,
    List.enum_map_fst]

/-- The id of a TLS observation is the uid followed by the sequence index,
whatever the handshake and events. -/
theorem tls_from_measurement_oid (msmt : Measurement) (tls_h : TLSHandshake)
    (events : Option (List NetworkEvent)) (idx : Nat) (m : IPDomainMap) :
    (TLSObservation.from_measurement msmt tls_h events idx m).observation_id
      = obsId msmt.measurement_uid idx := by
  simp only [TLSObservation.from_measurement]
  cases hfind : find_tls_handshake_network_events tls_h events with
  | none =>
    by_cases ha : optTruthy tls_h.address = true <;>
    by_cases hnv : tls_h.no_tls_verify = some false <;>
    by_cases hcert : failureInCertList (normalize_failure tls_h.failure) = true <;>
    by_cases hfal : failureFalsy (normalize_failure tls_h.failure) = true <;>
    simp [ha, hnv, hcert, hfal]
  | some l =>
    cases l with
    | nil =>
      by_cases ha : optTruthy tls_h.address = true <;>
      by_cases hnv : tls_h.no_tls_verify = some false <;>
      by_cases hcert : failureInCertList (normalize_failure tls_h.failure) = true <;>
      by_cases hfal : failureFalsy (normalize_failure tls_h.failure) = true <;>
      simp [ha, hnv, hcert, hfal]
    | cons ne0 tail =>
      by_cases h2 : optTruthy ne0.address = true <;>
      by_cases ha : optTruthy tls_h.address = true <;>
      by_cases hnv : tls_h.no_tls_verify = some false <;>
      by_cases hcert : failureInCertList (normalize_failure tls_h.failure) = true <;>
      by_cases hfal : failureFalsy (normalize_failure tls_h.failure) = true <;>
      simp [h2, ha, hnv, hcert, hfal]

/-- Ids assigned by `make_tls_observations`: uid plus the enumeration
index. -/
theorem make_tls_observations_ids (msmt : Measurement) (l : List TLSHandshake)
    (events : Option (List NetworkEvent)) (m : IPDomainMap) (target : Str) :
    (make_tls_observations msmt (some l) events m target).map (fun o => o.observation_id)
      = (List.range l.length).map (obsId msmt.measurement_uid) := by
  have h1 : (make_tls_observations msmt (some l) events m target).map
        (fun o => o.observation_id)
      = l.enum.map (fun p =>
          (TLSObservation.from_measurement msmt p.2 events p.1 m).observation_id) := by
    simp only [make_tls_observations, List.map_map]
    rfl
  rw [h1]
  have h2 : l.enum.map (fun p =>
        (TLSObservation.from_measurement msmt p.2 events p.1 m).observation_id)
      = l.enum.map (fun p => obsId msmt.measurement_uid p.1) :=
    List.map_congr_left (fun p _ => tls_from_measurement_oid msmt p.2 events p.1 m)
  rw [h2, show (fun p : Nat × TLSHandshake => obsId msmt.measurement_uid p.1)
      = (obsId msmt.measurement_uid) ∘ Prod.fst from rfl, ← List.map_map,
    List.enum_map_fst]

/-- An HTTP observation is built exactly when the transaction has a request,
and then its id is the uid followed by the enumeration index. -/
theorem http_from_measurement_oid (msmt : Measurement) (idx : Nat)
    (rl : List HTTPTransaction) (t : HTTPTransaction) (fpdb : FingerprintDB) :
    (HTTPObservation.from_measurement msmt idx rl t fpdb).map (fun o => o.observation_id)
      = t.request.map (fun _ => obsId msmt.measurement_uid idx) := by
  cases hreq : t.request with
  | none => simp [HTTPObservation.from_measurement, hreq]
  | some req =>
    cases hresp : t.response with
    | none => simp [HTTPObservation.from_measurement, hreq, hresp]
    | some resp =>
      simp only [HTTPObservation.from_measurement, hreq, hresp, Option.map_some']
      cases hbody : resp.body_bytes with
      | none =>
        cases hatt : attemptRedirect rl idx req.url <;>
          simp [hatt, applyFingerprintMatches_request_url, applyFingerprintMatches_oid]
      | some body =>
        by_cases hb : body = [] <;>
          cases hatt : attemptRedirect rl idx req.url <;>
          simp [hatt, hb, applyFingerprintMatches_request_url, applyFingerprintMatches_oid]

/-- Ids assigned by `make_http_observations`: uid plus the enumeration index
of exactly those transactions carrying a request. -/
theorem make_http_observations_ids (msmt : Measurement) (l : List HTTPTransaction)
    (fpdb : FingerprintDB) (target : Str) :
    (make_http_observations msmt (some l) fpdb target).map (fun o => o.observation_id)
      = ((l.enum.filter (fun p => p.2.request.isSome)).map
          (fun p => obsId msmt.measurement_uid p.1)) := by
  simp only [make_http_observations]
  have main : ∀ ps : List (Nat × HTTPTransaction),
      (ps.filterMap (fun p =>
          (HTTPObservation.from_measurement msmt p.1 l p.2 fpdb).map
            (fun o => { o with target := target }))).map (fun o => o.observation_id)
        = (ps.filter (fun p => p.2.request.isSome)).map
            (fun p => obsId msmt.measurement_uid p.1) := by
    intro ps
    induction ps with
    | nil => rfl
    | cons p ps ih =>
      cases hreq : p.2.request with
      | none =>
        have hf : HTTPObservation.from_measurement msmt p.1 l p.2 fpdb = none := by
          simp [HTTPObservation.from_measurement, hreq]
        simp [List.filterMap_cons, List.filter_cons, hf, hreq, ih]
      | some req =>
        have hf := http_from_measurement_oid msmt p.1 l p.2 fpdb
        rw [hreq] at hf
        cases hfm : HTTPObservation.from_measurement msmt p.1 l p.2 fpdb with
        | none =>
          rw [hfm] at hf
          simp at hf
        | some o =>
          rw [hfm] at hf
          simp only [Option.map_some'] at hf
          have hoid : o.observation_id = obsId msmt.measurement_uid p.1 := by
            simpa using hf
          simp [List.filterMap_cons, List.filter_cons, hfm, hreq, ih, hoid]
  exact main l.enum

/-- C8 amended: within each protocol builder every observation id is the
measurement uid concatenated with the decimal sequence index, and the ids of
one builder's output are pairwise distinct; across builders the same
(uid, index) pattern repeats, so ids of different protocols may coincide. -/
theorem claim_C8_amended_observation_ids :
    (∀ (msmt : Measurement) (qs : List DNSQuery) (target : Str),
      (make_dns_observations msmt (some qs) target).map (fun o => o.observation_id)
        = (List.range' 0 (dnsTotalAnswers qs)).map (obsId msmt.measurement_uid)
      ∧ ((make_dns_observations msmt (some qs) target).map
          (fun o => o.observation_id)).Nodup)
    ∧ (∀ (msmt : Measurement) (l : List TCPConnect) (m : IPDomainMap) (target : Str),
      (make_tcp_observations msmt (some l) m target).map (fun o => o.observation_id)
        = (List.range l.length).map (obsId msmt.measurement_uid)
      ∧ ((make_tcp_observations msmt (some l) m target).map
          (fun o => o.observation_id)).Nodup)
    ∧ (∀ (msmt : Measurement) (l : List TLSHandshake) (events : Option (List NetworkEvent))
          (m : IPDomainMap) (target : Str),
      (make_tls_observations msmt (some l) events m target).map (fun o => o.observation_id)
        = (List.range l.length).map (obsId msmt.measurement_uid)
      ∧ ((make_tls_observations msmt (some l) events m target).map
          (fun o => o.observation_id)).Nodup)
    ∧ (∀ (msmt : Measurement) (l : List HTTPTransaction) (fpdb : FingerprintDB)
          (target : Str),
      (make_http_observations msmt (some l) fpdb target).map (fun o => o.observation_id)
        = ((l.enum.filter (fun p => p.2.request.isSome)).map
            (fun p => obsId msmt.measurement_uid p.1))
      ∧ ((make_http_observations msmt (some l) fpdb target).map
          (fun o => o.observation_id)).Nodup) := by
  refine ⟨?_, ?_, ?_, ?_⟩
  · intro msmt qs target
    refine ⟨make_dns_observations_ids msmt qs target, ?_⟩
    rw [make_dns_observations_ids msmt qs target]
    exact (List.nodup_range' ..).map (obsId_injective msmt.measurement_uid)
  · intro msmt l m target
    refine ⟨make_tcp_observations_ids msmt l m target, ?_⟩
    rw [make_tcp_observations_ids msmt l m target]
    exact (List.nodup_range _).map (obsId_injective msmt.measurement_uid)
  · intro msmt l events m target
    refine ⟨make_tls_observations_ids msmt l events m target, ?_⟩
    rw [make_tls_observations_ids msmt l events m target]
    exact (List.nodup_range _).map (obsId_injective msmt.measurement_uid)
  · intro msmt l fpdb target
    refine ⟨make_http_observations_ids msmt l fpdb target, ?_⟩
    rw [make_http_observations_ids msmt l fpdb target]
    rw [show (fun p : Nat × HTTPTransaction => obsId msmt.measurement_uid p.1)
        = (obsId msmt.measurement_uid) ∘ Prod.fst from rfl, ← List.map_map]
    refine List.Nodup.map (obsId_injective msmt.measurement_uid) ?_
    have hsub : ((l.enum.filter (fun p => p.2.request.isSome)).map Prod.fst).Sublist
        (l.enum.map Prod.fst) :=
      (List.filter_sublist _).map Prod.fst
    rw [List.enum_map_fst] at hsub
    exact hsub.nodup (List.nodup_range _)

/-- Counterexample to C8: one measurement with one DNS query and one TCP
connect produces a DNS observation and a TCP observation with the *same*
observation id (uid followed by 0), so ids are not pairwise distinct across
all observations of the measurement. -/
theorem claim_C8_counterexample :
    ((make_dns_observations fix_msmt (some [c8_query]) (chars "")).map
        (fun o => o.observation_id)
      ++ (make_tcp_observations fix_msmt (some [c8_tcp]) [] (chars "")).map
        (fun o => o.observation_id))
      = [chars "m0", chars "m0"]
    ∧ ¬ ([chars "m0", chars "m0"] : List Str).Nodup :=
  ⟨by decide, by decide⟩

end Oonidata
